import Mathlib

/-!
Verification development for the Agentic-MAS orchestration core.

The definitions below are a shallow embedding of the Python sources:
  - src/shared/schemas/result.py, verification.py, route_decision.py (data model)
  - src/services/verifier/confidence_gate.py, ensemble_vote.py,
    augmentation_test.py, main.py (verification pipeline)
  - src/services/planner/agent_langgraph.py (LangGraph planner state machine)

Python floats are modelled as `Rat` (every constant compared in the code is an
exact decimal, far from any binary-rounding tie), strings as `String`, and the
per-call network/LLM effects as explicit input data threaded through the state
machine.  Pydantic `details: Dict[str, Any]` payloads are modelled as optional
typed fields covering exactly the keys the code writes.
-/

/-- Shallow embedding of `TopKPrediction` (src/shared/schemas/result.py). -/
structure TopKPrediction where
  label : String
  confidence : Rat
  rank : Nat
deriving Repr, DecidableEq

/-- Shallow embedding of `ClassificationResult` (src/shared/schemas/result.py).
The fields not read by the orchestration core (evidence, timestamp, MCP flags)
are omitted. -/
structure ClassificationResult where
  request_id : String
  agent_id : String
  label : String
  confidence : Rat
  top_k : List TopKPrediction
  latency_ms : Nat
deriving Repr, DecidableEq

/-- Shallow embedding of `VerificationStatus` (src/shared/schemas/verification.py). -/
inductive VerificationStatus where
  | PASS
  | FAIL
  | INCONCLUSIVE
deriving Repr, DecidableEq

/-- Shallow embedding of `VerificationTestResult` (src/shared/schemas/verification.py). -/
inductive VerificationTestResult where
  | pass
  | fail
  | skip
deriving Repr, DecidableEq

/-- Shallow embedding of `VerificationRecommendation` (src/shared/schemas/verification.py). -/
inductive VerificationRecommendation where
  | accept
  | replan_ensemble
  | replan_different_agents
  | human_review
  | abort
deriving Repr, DecidableEq

/-- Shallow embedding of `VerificationTest` (src/shared/schemas/verification.py).
The Python `details : Dict[str, Any]` is modelled by optional typed fields, one
per key the verifier code actually writes. -/
structure VerificationTest where
  test_name : String
  result : VerificationTestResult
  recommendation : Option VerificationRecommendation := none
  threshold : Option Rat := none
  actual : Option Rat := none
  agreement_rate : Option Rat := none
  agreement_threshold : Option Rat := none
  majority_label : Option String := none
  avg_confidence : Option Rat := none
  vote_distribution : Option (List (String × Nat)) := none
  reason : Option String := none
  note : Option String := none
deriving Repr, DecidableEq

/-- Shallow embedding of `DisagreementAnalysis` (src/shared/schemas/verification.py).
The `vote_distribution` dict is an association list in Python insertion order. -/
structure DisagreementAnalysis where
  agreement_rate : Rat
  conflicting_labels : List String
  vote_distribution : List (String × Nat)
deriving Repr, DecidableEq

/-- Shallow embedding of `VerificationReport` (src/shared/schemas/verification.py);
the `primary_result`/`ensemble_results` echo fields and the timestamp are omitted. -/
structure VerificationReport where
  request_id : String
  status : VerificationStatus
  tests_performed : List VerificationTest
  disagreement_analysis : Option DisagreementAnalysis
  recommendation : VerificationRecommendation
  notes : String
deriving Repr, DecidableEq

/-- Shallow embedding of `VerificationConfig` (src/shared/schemas/verification.py),
with the source defaults: note `enable_ensemble_voting` defaults to `False`. -/
structure VerificationConfig where
  enable_augmentation_test : Bool := true
  enable_ensemble_voting : Bool := false
  confidence_threshold : Rat := 75/100
  augmentation_stability_threshold : Rat := 67/100
  ensemble_agreement_threshold : Rat := 67/100
deriving Repr, DecidableEq

/-- Shallow embedding of `ConfidenceGate.verify`
(src/services/verifier/confidence_gate.py lines 22-64).  The interpolated
`reason` strings are abbreviated to their fixed prefixes. -/
def ConfidenceGate.verify (pass_threshold uncertain_threshold : Rat)
    (result : ClassificationResult) : VerificationTest :=
  let confidence := result.confidence
  if confidence ≥ pass_threshold then
    { test_name := "confidence_threshold", result := .pass,
      threshold := some pass_threshold, actual := some confidence,
      recommendation := some .accept }
  else if confidence ≥ uncertain_threshold then
    { test_name := "confidence_threshold", result := .fail,
      threshold := some pass_threshold, actual := some confidence,
      recommendation := some .replan_ensemble,
      reason := some "Confidence below threshold. Suggest ensemble." }
  else
    { test_name := "confidence_threshold", result := .fail,
      threshold := some pass_threshold, actual := some confidence,
      recommendation := some .human_review,
      reason := some "Very low confidence. Manual review required." }

/-- One entry of the vote tally of `EnsembleVoter.verify`: the label, its vote
count (`label_votes[label]`) and its confidence list (`label_confidences[label]`).
Python dicts iterate in insertion order, so both dicts are modelled together as
one association list in first-seen label order. -/
abbrev TallyEntry := String × Nat × List Rat

/-- One step of the vote-counting loop of `EnsembleVoter.verify`
(src/services/verifier/ensemble_vote.py lines 44-49): bump the count and append
the confidence for `lbl`, inserting a fresh entry at the end on first sight. -/
def bumpVote : List TallyEntry → String → Rat → List TallyEntry
  | [], lbl, c => [(lbl, 1, [c])]
  | e :: rest, lbl, c =>
    if e.1 = lbl then (e.1, e.2.1 + 1, e.2.2 ++ [c]) :: rest
    else e :: bumpVote rest lbl c

/-- The vote-counting loop of `EnsembleVoter.verify`
(src/services/verifier/ensemble_vote.py lines 41-49). -/
def tallyVotes (results : List ClassificationResult) : List TallyEntry :=
  results.foldl (fun acc r => bumpVote acc r.label r.confidence) []

/-- Python `max(label_votes.values())` (ensemble_vote.py line 52); every tally
count is positive, so folding from 0 agrees with Python max on the nonempty case. -/
def maxVotes (t : List TallyEntry) : Nat :=
  (t.map (fun e => e.2.1)).foldl Nat.max 0

/-- The comparison step of Python `max(label_votes, key=label_votes.get)`:
a later entry replaces the current best only on a strictly larger count, so
ties keep the earlier (first-seen) entry. -/
def pickMaxVote (b x : TallyEntry) : TallyEntry := if x.2.1 > b.2.1 then x else b

/-- Python `max(label_votes, key=label_votes.get)` (ensemble_vote.py line 56):
the first entry, in insertion order, attaining the maximal vote count.
Returns `none` on an empty tally (where Python `max` would raise). -/
def majorityEntry : List TallyEntry → Option TallyEntry
  | [] => none
  | e :: rest => some (rest.foldl pickMaxVote e)

/-- Lookup of `label_confidences[lbl]` in the tally. -/
def tallyConfs : List TallyEntry → String → List Rat
  | [], _ => []
  | e :: rest, lbl => if e.1 = lbl then e.2.2 else tallyConfs rest lbl

/-- Lookup of `label_votes[lbl]` in the tally. -/
def tallyCount : List TallyEntry → String → Nat
  | [], _ => 0
  | e :: rest, lbl => if e.1 = lbl then e.2.1 else tallyCount rest lbl

/-- The majority label of a result list: the first-seen label attaining the
maximal vote count (ensemble_vote.py lines 56 and 119), `""` on an empty
tally where Python `max` would raise. -/
def majorityLabelOf (t : List TallyEntry) : String :=
  ((majorityEntry t).map (fun e => e.1)).getD ""

/-- Python `sum(xs) / len(xs)` over a confidence list
(ensemble_vote.py lines 68 and 120). -/
def meanConfidence (confs : List Rat) : Rat :=
  confs.foldl (· + ·) 0 / (confs.length : Rat)

/-- Shallow embedding of `EnsembleVoter.verify`
(src/services/verifier/ensemble_vote.py lines 23-95).  Interpolated detail
strings (`votes`, `note`, `reason`) are abbreviated to fixed text. -/
def EnsembleVoter.verify (agreement_threshold : Rat)
    (results : List ClassificationResult) :
    VerificationTest × Option DisagreementAnalysis :=
  if results.length < 2 then
    ({ test_name := "ensemble_voting", result := .skip,
       reason := some "Less than 2 results, ensemble not applicable" }, none)
  else
    let t := tallyVotes results
    let total_votes : Nat := results.length
    let max_votes : Nat := maxVotes t
    let agreement_rate : Rat := (max_votes : Rat) / (total_votes : Rat)
    let majority_label : String := majorityLabelOf t
    let disagreement : DisagreementAnalysis :=
      { agreement_rate := agreement_rate,
        conflicting_labels := t.map (fun e => e.1),
        vote_distribution := t.map (fun e => (e.1, e.2.1)) }
    if agreement_rate ≥ agreement_threshold then
      ({ test_name := "ensemble_voting", result := .pass,
         agreement_rate := some agreement_rate,
         agreement_threshold := some agreement_threshold,
         majority_label := some majority_label,
         avg_confidence := some (meanConfidence (tallyConfs t majority_label)),
         recommendation := some .accept,
         note := some "agents agreed on the majority label" }, some disagreement)
    else
      ({ test_name := "ensemble_voting", result := .fail,
         agreement_rate := some agreement_rate,
         agreement_threshold := some agreement_threshold,
         vote_distribution := some (t.map (fun e => (e.1, e.2.1))),
         recommendation := some .human_review,
         reason := some "No majority." }, some disagreement)

/-- Shallow embedding of `EnsembleVoter.get_ensemble_result`
(src/services/verifier/ensemble_vote.py lines 97-128): majority label,
mean confidence of its votes, agent id replaced by `"ensemble"`, the first
result used as template.  `none` models the exception Python would raise on
an empty list (the callers guard against it). -/
def EnsembleVoter.get_ensemble_result (results : List ClassificationResult) :
    Option ClassificationResult :=
  match results with
  | [] => none
  | r0 :: _ =>
    let t := tallyVotes results
    let majority_label : String := majorityLabelOf t
    let avg_confidence : Rat := meanConfidence (tallyConfs t majority_label)
    some { r0 with label := majority_label, confidence := avg_confidence,
                   agent_id := "ensemble" }

/-- A single-quote character as a string, for reproducing Python list reprs. -/
def squote : String := (Char.ofNat 39).toString

/-- The comma-joined body of a Python list repr of strings. -/
def joinQuoted : List String → String
  | [] => ""
  | [n] => squote ++ n ++ squote
  | n :: rest => squote ++ n ++ squote ++ ", " ++ joinQuoted rest

/-- Python `str` of a list of strings, as interpolated into the aggregation
notes (src/services/verifier/main.py line 145). -/
def pythonStrListRepr (names : List String) : String :=
  "[" ++ joinQuoted names ++ "]"

/-- Shallow embedding of `Verifier._aggregate_results`
(src/services/verifier/main.py lines 107-147). -/
def Verifier.aggregate_results (tests : List VerificationTest) :
    VerificationStatus × VerificationRecommendation × String :=
  let failed_tests := tests.filter (fun t => t.result = .fail)
  let passed_tests := tests.filter (fun t => t.result = .pass)
  if failed_tests.isEmpty then
    (.PASS, .accept,
     "All " ++ toString passed_tests.length ++ " verification tests passed.")
  else
    let recommendations := failed_tests.filterMap (fun t => t.recommendation)
    let final_recommendation :=
      if VerificationRecommendation.human_review ∈ recommendations then
        VerificationRecommendation.human_review
      else if VerificationRecommendation.replan_ensemble ∈ recommendations then
        VerificationRecommendation.replan_ensemble
      else if VerificationRecommendation.replan_different_agents ∈ recommendations then
        VerificationRecommendation.replan_different_agents
      else
        VerificationRecommendation.abort
    let notes := toString failed_tests.length ++ " test(s) failed: " ++
      pythonStrListRepr (failed_tests.map (fun t => t.test_name))
    (.FAIL, final_recommendation, notes)

/-- Environment of one augmentation-stability run: whether the transform or
re-classification round trip raised, and how many of the perturbed
re-classifications preserved the label.  This abstracts the network
interaction of `AugmentationStabilityTester.verify`. -/
structure AugEnv where
  errored : Bool
  stable_count : Nat
  n_transforms : Nat
deriving Repr, DecidableEq

/-- Shallow embedding of `AugmentationStabilityTester.verify`
(src/services/verifier/augmentation_test.py lines 24-145), with the network
round trip abstracted by `AugEnv`. -/
def AugmentationStabilityTester.verify (stability_threshold : Rat)
    (slim_client : Bool) (env : AugEnv) : VerificationTest :=
  if !slim_client then
    { test_name := "augmentation_stability", result := .skip,
      reason := some "Augmentation test not configured (requires SLIM client)",
      recommendation := some .accept }
  else if env.errored then
    { test_name := "augmentation_stability", result := .fail,
      recommendation := some .accept }
  else
    let stability_rate : Rat :=
      if env.n_transforms = 0 then 0
      else (env.stable_count : Rat) / (env.n_transforms : Rat)
    if stability_rate ≥ stability_threshold then
      { test_name := "augmentation_stability", result := .pass,
        recommendation := some .accept,
        note := some "label stable under transforms" }
    else
      { test_name := "augmentation_stability", result := .fail,
        recommendation := some .replan_different_agents,
        reason := some "Unstable predictions." }

/-- Shallow embedding of `Verifier.verify` (src/services/verifier/main.py
lines 42-105).  `agent_url`/`slim_client` mirror the optional Python arguments
(the planner passes neither); `aug` carries the abstracted augmentation
round-trip outcome used only when the augmentation test actually runs. -/
def Verifier.verify (cfg : VerificationConfig) (agent_url : Option String)
    (slim_client : Bool) (aug : AugEnv) (request_id : String)
    (results : List ClassificationResult) : VerificationReport :=
  match results with
  | [] =>
    { request_id := request_id, status := .FAIL, tests_performed := [],
      disagreement_analysis := none, recommendation := .abort,
      notes := "No results to verify" }
  | primary_result :: _ =>
    let conf_test := ConfidenceGate.verify cfg.confidence_threshold (6/10) primary_result
    let base := [conf_test]
    let (tests1, disagreement_analysis) :=
      if results.length > 1 ∧ cfg.enable_ensemble_voting then
        let (ensemble_test, d) := EnsembleVoter.verify cfg.ensemble_agreement_threshold results
        (base ++ [ensemble_test], d)
      else (base, none)
    let tests_performed :=
      if cfg.enable_augmentation_test ∧ agent_url.isSome ∧ slim_client then
        tests1 ++ [AugmentationStabilityTester.verify
          cfg.augmentation_stability_threshold slim_client aug]
      else tests1
    let (status, recommendation, notes) := Verifier.aggregate_results tests_performed
    { request_id := request_id, status := status,
      tests_performed := tests_performed,
      disagreement_analysis := disagreement_analysis,
      recommendation := recommendation, notes := notes }

/-- Python strings are sequences of characters; the planner's free-text
parsing is modelled on the `List Char` representation so that every string
operation below is a structural recursion.  `stripChars` is Python
`str.strip()`: drop leading and trailing whitespace. -/
def stripChars (s : List Char) : List Char :=
  ((s.dropWhile Char.isWhitespace).reverse.dropWhile Char.isWhitespace).reverse

/-- Python `str.split(sep)` for a one-character separator. -/
def splitChar (sep : Char) : List Char → List (List Char)
  | [] => [[]]
  | c :: rest =>
    match splitChar sep rest with
    | [] => [[c]]
    | h :: t => if c = sep then [] :: h :: t else (c :: h) :: t

/-- The tail of Python `line.split(":", 1)[1]`: everything after the first
colon.  The callers only apply it to lines that start with `"Label:"` or
`"Confidence:"`, so a colon is present. -/
def colonTailChars (line : List Char) : List Char :=
  (line.dropWhile (fun c => c ≠ ':')).drop 1

/-- Numeric value of a digit run, for Python numeric parsing. -/
def digitsToNat (cs : List Char) : Nat :=
  cs.foldl (fun n c => n * 10 + (c.toNat - 48)) 0

/-- Python `int(s)`: the value of a nonempty all-digit character run,
`none` (a raised `ValueError`) otherwise. -/
def charsToNat? (cs : List Char) : Option Nat :=
  if cs ≠ [] ∧ cs.all Char.isDigit then some (digitsToNat cs) else none

/-- Python `float(s)` restricted to plain decimal literals (optional sign,
digits, optional fractional part), the only shapes the agent responses use;
`none` models the `ValueError` Python raises otherwise. -/
def parseDecimal (s : List Char) : Option Rat :=
  let neg := "-".data.isPrefixOf s
  let body := if neg ∨ "+".data.isPrefixOf s then s.drop 1 else s
  let signed : Rat → Rat := fun q => if neg then -q else q
  match splitChar '.' body with
  | [ip] => (charsToNat? ip).map (fun n => signed (n : Rat))
  | [ip, fp] =>
    if ip = [] ∧ fp = [] then none
    else
      let ipn := if ip = [] then some 0 else charsToNat? ip
      let fpn := if fp = [] then some 0 else charsToNat? fp
      match ipn, fpn with
      | some i, some f => some (signed ((i : Rat) + (f : Rat) / ((10 : Rat) ^ fp.length)))
      | _, _ => none
  | _ => none

/-- The synthetic result `_parse_classification_result` builds when parsing
raises (src/services/planner/agent_langgraph.py lines 617-626).  `fresh_id`
stands for the `uuid4()` value. -/
def parseErrorResult (fresh_id agent_id : String) : ClassificationResult :=
  { request_id := fresh_id, agent_id := agent_id, label := "parse_error",
    confidence := 0,
    top_k := [{ label := "parse_error", confidence := 0, rank := 1 }],
    latency_ms := 0 }

/-- One step of the line loop of `_parse_classification_result`
(agent_langgraph.py lines 600-607), updating the (label, confidence) pair;
a `Confidence:` line that fails `float()` is ignored (the inner
`except ValueError: pass`). -/
def parseLineStep (acc : List Char × Rat) (line : List Char) : List Char × Rat :=
  if "Label:".data.isPrefixOf line then (stripChars (colonTailChars line), acc.2)
  else if "Confidence:".data.isPrefixOf line then
    match parseDecimal (stripChars (colonTailChars line)) with
    | some c => (acc.1, c)
    | none => acc
  else acc

/-- Shallow embedding of `LangGraphPlannerAgent._parse_classification_result`
(src/services/planner/agent_langgraph.py lines 584-626).  `jsonDecode`
abstracts `json.loads` plus pydantic construction on the structured branch
(`none` = that branch raised); `fresh_id` stands for `uuid4()`.  The final
range check models pydantic rejecting a parsed confidence outside [0, 1],
which the surrounding `except` turns into the synthetic parse-error result. -/
def parse_classification_result
    (jsonDecode : String → Option ClassificationResult)
    (fresh_id agent_id : String) (response_text : String) : ClassificationResult :=
  if "\x7b".data.isPrefixOf response_text.data then
    match jsonDecode response_text with
    | some r => r
    | none => parseErrorResult fresh_id agent_id
  else
    let init : List Char × Rat := (stripChars response_text.data, 8/10)
    let parsed := (splitChar (Char.ofNat 10) response_text.data).foldl parseLineStep init
    if 0 ≤ parsed.2 ∧ parsed.2 ≤ 1 then
      { request_id := fresh_id, agent_id := agent_id, label := ⟨parsed.1⟩,
        confidence := parsed.2,
        top_k := [{ label := ⟨parsed.1⟩, confidence := parsed.2, rank := 1 }],
        latency_ms := 0 }
    else parseErrorResult fresh_id agent_id

/-- Upper bound on replanning iterations
(src/services/planner/agent_langgraph.py line 46). -/
def MAX_REPLANS : Nat := 3

/-- The fields of the LangGraph `PlannerState` dict read or written by the
workflow nodes (agent_langgraph.py lines 71-107).  `error = none` models the
falsy initial `""`; `discovered_agents` keeps only the agent ids (the node
logic reads the list solely for emptiness and length).  The request is
represented by its two fields the control flow consults. -/
structure PlannerState where
  request_id : String
  min_confidence : Rat
  iteration : Nat
  discovered_agents : List String
  results : List ClassificationResult
  verification_status : String
  verification_recommendation : String
  mismatch_warning : Option String
  error : Option String
deriving Repr, DecidableEq

/-- Outcome of the reflection step's LLM interaction
(agent_langgraph.py lines 664-735): either a structured `ShouldContinue`
reply, or the rule-based `_fallback_reflection` path (LLM absent or raised). -/
inductive ReflectionOutcome where
  | llm (should_continue : Bool) (reason : String) (mismatch_detected : Bool)
  | fallback
deriving Repr, DecidableEq

/-- Environment of one pass through the workflow graph: the agents the
supervisor/discovery step ends up with, the successfully parsed results the
dispatch step collects, and the reflection LLM's reply. -/
structure IterInput where
  discovered : List String
  dispatched : List ClassificationResult
  reflection : ReflectionOutcome
deriving Repr, DecidableEq

/-- Shallow embedding of the supervisor/discovery stage
(`_supervisor_node` + `_discover_agents_node`, agent_langgraph.py lines
202-371): both paths end with the discovered agent list set, and with
`error = "NO_AGENTS_AVAILABLE"` exactly when that list is empty. -/
def supervisorNode (s : PlannerState) (discovered : List String) : PlannerState :=
  if discovered.isEmpty then
    { s with discovered_agents := [], error := some "NO_AGENTS_AVAILABLE" }
  else
    { s with discovered_agents := discovered }

/-- Target of the conditional edge after `route_decision`. -/
inductive RouteChoice where
  | simple
  | ensemble
  | error
deriving Repr, DecidableEq

/-- Shallow embedding of `_should_use_ensemble`
(agent_langgraph.py lines 856-877). -/
def shouldUseEnsemble (s : PlannerState) : RouteChoice :=
  if s.error.isSome then .error
  else if s.discovered_agents.isEmpty then .error
  else if s.iteration > 1 ∨ s.min_confidence > 85/100 ∨ s.discovered_agents.length ≥ 3 then
    .ensemble
  else .simple

/-- Shallow embedding of `ExecutionStrategy`
(src/shared/schemas/route_decision.py). -/
inductive ExecutionStrategy where
  | single_best
  | parallel_ensemble
  | sequential_fallback
deriving Repr, DecidableEq

/-- The routing strategy as a function of the three quantities
`_should_use_ensemble` reads once its error guards pass: the conditional edge
routes to `_route_ensemble_node` (strategy `PARALLEL_ENSEMBLE`) when
`iteration > 1 or min_confidence > 0.85 or agent_count >= 3`, else to
`_route_simple_node` (strategy `SINGLE_BEST`)
(agent_langgraph.py lines 406-480 and 866-877). -/
def routedStrategy (iteration : Nat) (min_confidence : Rat) (agent_count : Nat) :
    ExecutionStrategy :=
  if iteration > 1 ∨ min_confidence > 85/100 ∨ agent_count ≥ 3 then
    .parallel_ensemble
  else .single_best

/-- The reason string `_route_decision_node` attaches for the same three
quantities (agent_langgraph.py lines 390-398). -/
def routeDecisionReason (iteration : Nat) (min_confidence : Rat) (agent_count : Nat) :
    String :=
  if iteration > 1 then "Previous attempt failed, using ensemble for reliability"
  else if min_confidence > 85/100 then "High confidence required, using ensemble"
  else if agent_count ≥ 3 then "Multiple agents available, single_best is efficient"
  else "First attempt, using single_best for speed"

/-- Shallow embedding of `_execute_tasks_node`
(agent_langgraph.py lines 501-582): `dispatched` is the list of successfully
parsed results the chosen strategy collected over the network; an empty list
sets `error = "ALL_AGENTS_FAILED"`. -/
def executeTasksNode (s : PlannerState) (dispatched : List ClassificationResult) :
    PlannerState :=
  if dispatched.isEmpty then
    { s with results := [], error := some "ALL_AGENTS_FAILED" }
  else
    { s with results := dispatched }

/-- The default `AugEnv` for the planner's verifier call: `_reflection_node`
passes neither `agent_url` nor `slim_client`, so the augmentation branch never
runs and this value is never consulted. -/
def unusedAug : AugEnv := { errored := false, stable_count := 0, n_transforms := 0 }

/-- Shallow embedding of `_fallback_reflection`
(agent_langgraph.py lines 739-751).  The results list is nonempty at every
call site, so Python `max(...)` agrees with folding from 0 (confidences are
nonnegative by schema validation). -/
def fallbackReflection (s : PlannerState) : PlannerState :=
  let max_confidence := (s.results.map (fun r => r.confidence)).foldl max 0
  let report := Verifier.verify {} none false unusedAug s.request_id s.results
  if max_confidence ≥ s.min_confidence ∨ report.status = .PASS then
    { s with verification_status := "PASS", verification_recommendation := "success" }
  else
    { s with verification_status := "FAIL", verification_recommendation := "replan" }

/-- Shallow embedding of `_reflection_node`
(agent_langgraph.py lines 628-737): empty results fail immediately; a
structured LLM reply is applied as written (mismatch forces PASS and stores
the warning; `should_continue` below the iteration bound fails and requests a
replan; otherwise PASS); an unavailable or raising LLM falls back to the
rule-based reflection. -/
def reflectionNode (s : PlannerState) (outcome : ReflectionOutcome) : PlannerState :=
  if s.results.isEmpty then
    { s with verification_status := "FAIL", verification_recommendation := "replan" }
  else
    match outcome with
    | .llm should_continue reason mismatch_detected =>
      if mismatch_detected then
        { s with verification_status := "PASS",
                 verification_recommendation := "success",
                 mismatch_warning := some reason }
      else if should_continue ∧ s.iteration < MAX_REPLANS then
        { s with verification_status := "FAIL", verification_recommendation := "replan" }
      else
        { s with verification_status := "PASS", verification_recommendation := "success" }
    | .fallback => fallbackReflection s

/-- Shallow embedding of `_check_status_node`
(agent_langgraph.py lines 753-771): the iteration counter is bumped only on
the final (replan) branch. -/
def checkStatusNode (s : PlannerState) : PlannerState :=
  if s.verification_status = "PASS" then s
  else if s.verification_recommendation = "human_review" then s
  else if s.iteration ≥ MAX_REPLANS then s
  else { s with iteration := s.iteration + 1 }

/-- Target of the conditional edge after `check_status`. -/
inductive NextAction where
  | success
  | replan
  | human_review
  | max_replans
  | error
deriving Repr, DecidableEq

/-- Shallow embedding of `_decide_next_action`
(agent_langgraph.py lines 879-896). -/
def decideNextAction (s : PlannerState) : NextAction :=
  if s.error.isSome then .error
  else if s.verification_status = "PASS" then .success
  else if s.verification_recommendation = "human_review" then .human_review
  else if s.iteration ≥ MAX_REPLANS then .max_replans
  else .replan

/-- The final response fields the claims consult
(`_finalize_response_node` / `_handle_error_node` outputs). -/
structure FinalResponse where
  status : String
  iterations : Nat
  error : Option String
  mismatch_warning : Option String
  result : Option ClassificationResult
deriving Repr, DecidableEq

/-- Shallow embedding of `_finalize_response_node`
(agent_langgraph.py lines 773-838). -/
def finalizeResponseNode (s : PlannerState) : FinalResponse :=
  if s.verification_status = "PASS" ∧ ¬ s.results.isEmpty then
    let final_result :=
      if s.results.length = 1 then s.results.head?
      else EnsembleVoter.get_ensemble_result s.results
    match s.mismatch_warning with
    | some w =>
      { status := "COMPLETED_WITH_WARNING", iterations := s.iteration,
        error := none, mismatch_warning := some w, result := final_result }
    | none =>
      { status := "COMPLETED", iterations := s.iteration,
        error := none, mismatch_warning := none, result := final_result }
  else if s.verification_recommendation = "human_review" then
    { status := "NEEDS_REVIEW", iterations := s.iteration,
      error := none, mismatch_warning := none, result := s.results.head? }
  else if s.iteration ≥ MAX_REPLANS then
    { status := "INCONCLUSIVE", iterations := s.iteration,
      error := some "MAX_REPLANS_EXCEEDED", mismatch_warning := none, result := none }
  else
    { status := "FAILED", iterations := s.iteration,
      error := some (s.error.getD "UNKNOWN_ERROR"), mismatch_warning := none,
      result := none }

/-- Shallow embedding of `_handle_error_node`
(agent_langgraph.py lines 840-852). -/
def handleErrorNode (s : PlannerState) : FinalResponse :=
  { status := "FAILED", iterations := s.iteration,
    error := some (s.error.getD "UNKNOWN_ERROR"), mismatch_warning := none,
    result := none }

/-- Result of one pass through the compiled graph: either the loop re-enters
the selection stage (`next`, the `replan -> supervisor` edge) or a final
response is produced. -/
inductive IterOutcome where
  | next (s : PlannerState)
  | done (r : FinalResponse)
deriving Repr, DecidableEq

/-- One pass through the workflow graph
(`supervisor -> discover_agents -> route_decision -> route_* -> execute_tasks
-> reflection -> check_status -> {finalize_response | handle_error | supervisor}`,
agent_langgraph.py lines 144-198). -/
def runIteration (s : PlannerState) (inp : IterInput) : IterOutcome :=
  let s1 := supervisorNode s inp.discovered
  if shouldUseEnsemble s1 = RouteChoice.error then .done (handleErrorNode s1)
  else
    let s2 := executeTasksNode s1 inp.dispatched
    let s3 := reflectionNode s2 inp.reflection
    let s4 := checkStatusNode s3
    match decideNextAction s4 with
    | .error => .done (handleErrorNode s4)
    | .replan => .next s4
    | .success => .done (finalizeResponseNode s4)
    | .human_review => .done (finalizeResponseNode s4)
    | .max_replans => .done (finalizeResponseNode s4)

/-- The cyclic part of the graph: keep re-entering the selection stage while
the decision is `replan`.  Fuel bounds the recursion; `none` (never reached
from the initial state with fuel `MAX_REPLANS`) would mean fuel ran out. -/
def runLoop : Nat → PlannerState → (Nat → IterInput) → Option FinalResponse
  | 0, _, _ => none
  | fuel + 1, s, env =>
    match runIteration s (env s.iteration) with
    | .done r => some r
    | .next s' => runLoop fuel s' env

/-- The initial `PlannerState` built by `plan_and_execute`
(agent_langgraph.py lines 909-924). -/
def initialState (request_id : String) (min_confidence : Rat) : PlannerState :=
  { request_id := request_id, min_confidence := min_confidence, iteration := 1,
    discovered_agents := [], results := [], verification_status := "",
    verification_recommendation := "", mismatch_warning := none, error := none }

/-- Shallow embedding of `plan_and_execute`
(agent_langgraph.py lines 900-943): run the graph from the initial state;
`env` supplies the per-iteration network/LLM outcomes, indexed by the
iteration counter. -/
def plan_and_execute (request_id : String) (min_confidence : Rat)
    (env : Nat → IterInput) : Option FinalResponse :=
  runLoop MAX_REPLANS (initialState request_id min_confidence) env

/-! Helper lemmas about the vote tally. -/

lemma maxVotes_nil : maxVotes [] = 0 := rfl

lemma foldl_natmax_eq (l : List Nat) (n : Nat) :
    l.foldl Nat.max n = Nat.max n (l.foldl Nat.max 0) := by
  induction l generalizing n with
  | nil => simp
  | cons a l ih =>
    simp only [List.foldl_cons]
    rw [ih (Nat.max n a), ih (Nat.max 0 a)]
    simp [Nat.max_assoc]

lemma maxVotes_cons (e : TallyEntry) (t : List TallyEntry) :
    maxVotes (e :: t) = Nat.max e.2.1 (maxVotes t) := by
  simp only [maxVotes, List.map_cons, List.foldl_cons]
  rw [foldl_natmax_eq]
  simp

lemma le_maxVotes_of_mem {t : List TallyEntry} {e : TallyEntry} (h : e ∈ t) :
    e.2.1 ≤ maxVotes t := by
  induction t with
  | nil => cases h
  | cons a t ih =>
    rw [maxVotes_cons]
    rcases List.mem_cons.1 h with rfl | h
    · exact Nat.le_max_left _ _
    · exact le_trans (ih h) (Nat.le_max_right _ _)

lemma foldl_pickMaxVote_mem (rest : List TallyEntry) (e : TallyEntry) :
    rest.foldl pickMaxVote e ∈ e :: rest := by
  induction rest generalizing e with
  | nil => simp
  | cons x rest ih =>
    simp only [List.foldl_cons]
    have h := ih (pickMaxVote e x)
    rcases List.mem_cons.1 h with h | h
    · rw [h]
      unfold pickMaxVote
      split_ifs
      · exact List.mem_cons_of_mem _ (List.mem_cons_self _ _)
      · exact List.mem_cons_self _ _
    · exact List.mem_cons_of_mem _ (List.mem_cons_of_mem _ h)

lemma foldl_pickMaxVote_ge (rest : List TallyEntry) (e : TallyEntry) :
    ∀ x ∈ e :: rest, x.2.1 ≤ (rest.foldl pickMaxVote e).2.1 := by
  induction rest generalizing e with
  | nil => intro x hx; simp at hx; simp [hx]
  | cons y rest ih =>
    intro x hx
    simp only [List.foldl_cons]
    have hbase := ih (pickMaxVote e y)
    have hey : e.2.1 ≤ (pickMaxVote e y).2.1 ∧ y.2.1 ≤ (pickMaxVote e y).2.1 := by
      unfold pickMaxVote; split_ifs with hgt
      · exact ⟨Nat.le_of_lt hgt, le_refl _⟩
      · exact ⟨le_refl _, Nat.le_of_not_lt hgt⟩
    rcases List.mem_cons.1 hx with rfl | hx
    · exact le_trans hey.1 (hbase _ (List.mem_cons_self _ _))
    · rcases List.mem_cons.1 hx with rfl | hx
      · exact le_trans hey.2 (hbase _ (List.mem_cons_self _ _))
      · exact hbase _ (List.mem_cons_of_mem _ hx)

lemma maxVotes_le {t : List TallyEntry} {c : Nat} (h : ∀ x ∈ t, x.2.1 ≤ c) :
    maxVotes t ≤ c := by
  induction t with
  | nil => simp [maxVotes_nil]
  | cons a t ih =>
    rw [maxVotes_cons]
    exact Nat.max_le.2 ⟨h a (List.mem_cons_self _ _),
      ih (fun x hx => h x (List.mem_cons_of_mem _ hx))⟩

lemma majorityEntry_spec {t : List TallyEntry} (h : t ≠ []) :
    ∃ e, majorityEntry t = some e ∧ e ∈ t ∧ e.2.1 = maxVotes t := by
  rcases t with _ | ⟨a, rest⟩
  · exact absurd rfl h
  · refine ⟨rest.foldl pickMaxVote a, rfl, foldl_pickMaxVote_mem rest a, ?_⟩
    have h1 : (rest.foldl pickMaxVote a).2.1 ≤ maxVotes (a :: rest) :=
      le_maxVotes_of_mem (foldl_pickMaxVote_mem rest a)
    have h2 : maxVotes (a :: rest) ≤ (rest.foldl pickMaxVote a).2.1 :=
      maxVotes_le (foldl_pickMaxVote_ge rest a)
    omega

lemma foldl_pickMaxVote_eq_find (rest : List TallyEntry) :
    ∀ e : TallyEntry,
      some (rest.foldl pickMaxVote e) =
        (e :: rest).find? (fun x => decide (maxVotes (e :: rest) ≤ x.2.1)) := by
  induction rest with
  | nil =>
    intro e
    have h : maxVotes [e] ≤ e.2.1 := by
      rw [maxVotes_cons, maxVotes_nil]; simp
    simp [List.find?, h]
  | cons x rest ih =>
    intro e
    by_cases hc : x.2.1 > e.2.1
    · have hpick : pickMaxVote e x = x := if_pos hc
      have hM : maxVotes (e :: x :: rest) = maxVotes (x :: rest) := by
        rw [maxVotes_cons (e := e)]
        exact Nat.max_eq_right
          (le_trans (Nat.le_of_lt hc) (by rw [maxVotes_cons]; exact Nat.le_max_left _ _))
      have hxle : x.2.1 ≤ maxVotes (x :: rest) := by
        rw [maxVotes_cons]; exact Nat.le_max_left _ _
      have hpe : ¬ (maxVotes (e :: x :: rest) ≤ e.2.1) := by rw [hM]; omega
      calc some (List.foldl pickMaxVote e (x :: rest))
          = some (List.foldl pickMaxVote x rest) := by rw [List.foldl_cons, hpick]
        _ = List.find? (fun z => decide (maxVotes (x :: rest) ≤ z.2.1)) (x :: rest) := ih x
        _ = List.find? (fun z => decide (maxVotes (e :: x :: rest) ≤ z.2.1)) (x :: rest) := by
              rw [hM]
        _ = List.find? (fun z => decide (maxVotes (e :: x :: rest) ≤ z.2.1)) (e :: x :: rest) :=
              (List.find?_cons_of_neg _ (by simp [hpe])).symm
    · have hxe : x.2.1 ≤ e.2.1 := Nat.le_of_not_lt hc
      have hpick : pickMaxVote e x = e := if_neg hc
      have hM : maxVotes (e :: x :: rest) = maxVotes (e :: rest) := by
        rw [maxVotes_cons (e := e), maxVotes_cons (e := x), maxVotes_cons (e := e)]
        apply le_antisymm
        · exact Nat.max_le.2 ⟨Nat.le_max_left _ _,
            Nat.max_le.2 ⟨le_trans hxe (Nat.le_max_left _ _), Nat.le_max_right _ _⟩⟩
        · exact Nat.max_le.2 ⟨Nat.le_max_left _ _,
            le_trans (Nat.le_max_right x.2.1 _) (Nat.le_max_right _ _)⟩
      have hstep : some (List.foldl pickMaxVote e (x :: rest)) =
          List.find? (fun z => decide (maxVotes (e :: x :: rest) ≤ z.2.1)) (e :: rest) := by
        calc some (List.foldl pickMaxVote e (x :: rest))
            = some (List.foldl pickMaxVote e rest) := by rw [List.foldl_cons, hpick]
          _ = List.find? (fun z => decide (maxVotes (e :: rest) ≤ z.2.1)) (e :: rest) := ih e
          _ = List.find? (fun z => decide (maxVotes (e :: x :: rest) ≤ z.2.1)) (e :: rest) := by
                rw [hM]
      rw [hstep]
      by_cases hpe : maxVotes (e :: x :: rest) ≤ e.2.1
      · rw [List.find?_cons_of_pos _ (by simp [hpe]),
            List.find?_cons_of_pos _ (by simp [hpe])]
      · have hpx : ¬ (maxVotes (e :: x :: rest) ≤ x.2.1) := by omega
        rw [List.find?_cons_of_neg _ (by simp [hpe]),
            List.find?_cons_of_neg _ (by simp [hpe]),
            List.find?_cons_of_neg _ (by simp [hpx])]

lemma majorityEntry_eq_find (t : List TallyEntry) (h : t ≠ []) :
    majorityEntry t = t.find? (fun x => decide (maxVotes t ≤ x.2.1)) := by
  rcases t with _ | ⟨a, rest⟩
  · exact absurd rfl h
  · exact foldl_pickMaxVote_eq_find rest a

lemma mem_bumpVote_label {acc : List TallyEntry} {lbl : String} {c : Rat}
    {e : TallyEntry} (h : e ∈ bumpVote acc lbl c) :
    e.1 = lbl ∨ e.1 ∈ acc.map (fun x => x.1) := by
  induction acc with
  | nil =>
    simp [bumpVote] at h
    simp [h]
  | cons a acc ih =>
    unfold bumpVote at h
    split_ifs at h with ha
    · rcases List.mem_cons.1 h with rfl | h
      · exact Or.inl ha
      · exact Or.inr (List.mem_map_of_mem _ (List.mem_cons_of_mem _ h))
    · rcases List.mem_cons.1 h with rfl | h
      · exact Or.inr (List.mem_map_of_mem _ (List.mem_cons_self _ _))
      · rcases ih h with h' | h'
        · exact Or.inl h'
        · exact Or.inr (by rw [List.map_cons]; exact List.mem_cons_of_mem _ h')

lemma mem_tally_go_label (rs : List ClassificationResult) :
    ∀ (acc : List TallyEntry) (e : TallyEntry),
      e ∈ rs.foldl (fun a r => bumpVote a r.label r.confidence) acc →
      e.1 ∈ acc.map (fun x => x.1) ∨ e.1 ∈ rs.map (fun r => r.label) := by
  induction rs with
  | nil => intro acc e h; exact Or.inl (List.mem_map_of_mem _ h)
  | cons r rs ih =>
    intro acc e h
    rcases ih (bumpVote acc r.label r.confidence) e h with h' | h'
    · rcases List.mem_map.1 h' with ⟨x, hx, hxe⟩
      rcases mem_bumpVote_label hx with h'' | h''
      · refine Or.inr ?_
        rw [List.map_cons, ← hxe, h'']
        exact List.mem_cons_self _ _
      · exact Or.inl (hxe ▸ h'')
    · exact Or.inr (by rw [List.map_cons]; exact List.mem_cons_of_mem _ h')

lemma mem_tally_label {rs : List ClassificationResult} {e : TallyEntry}
    (h : e ∈ tallyVotes rs) : e.1 ∈ rs.map (fun r => r.label) := by
  rcases mem_tally_go_label rs [] e h with h' | h'
  · simp at h'
  · exact h'

lemma bumpVote_count (acc : List TallyEntry) (lbl : String) (c : Rat) (l : String) :
    tallyCount (bumpVote acc lbl c) l =
      tallyCount acc l + (if lbl = l then 1 else 0) := by
  induction acc with
  | nil =>
    by_cases h : lbl = l <;> simp [bumpVote, tallyCount, h]
  | cons a acc ih =>
    by_cases ha : a.1 = lbl
    · simp only [bumpVote, if_pos ha]
      by_cases hal : a.1 = l
      · have hll : lbl = l := ha.symm.trans hal
        simp [tallyCount, hal, hll]
      · have hll : ¬ lbl = l := fun h => hal (ha.trans h)
        simp [tallyCount, hal, hll]
    · simp only [bumpVote, if_neg ha]
      by_cases hal : a.1 = l
      · have hll : ¬ lbl = l := fun h => ha (hal.trans h.symm)
        simp [tallyCount, hal, hll]
      · simp [tallyCount, hal, ih]

lemma bumpVote_confs (acc : List TallyEntry) (lbl : String) (c : Rat) (l : String) :
    tallyConfs (bumpVote acc lbl c) l =
      tallyConfs acc l ++ (if lbl = l then [c] else []) := by
  induction acc with
  | nil =>
    by_cases h : lbl = l <;> simp [bumpVote, tallyConfs, h]
  | cons a acc ih =>
    by_cases ha : a.1 = lbl
    · simp only [bumpVote, if_pos ha]
      by_cases hal : a.1 = l
      · have hll : lbl = l := ha.symm.trans hal
        simp [tallyConfs, hal, hll]
      · have hll : ¬ lbl = l := fun h => hal (ha.trans h)
        simp [tallyConfs, hal, hll]
    · simp only [bumpVote, if_neg ha]
      by_cases hal : a.1 = l
      · have hll : ¬ lbl = l := fun h => ha (hal.trans h.symm)
        simp [tallyConfs, hal, hll]
      · simp [tallyConfs, hal, ih]

lemma tally_go_count (rs : List ClassificationResult) :
    ∀ (acc : List TallyEntry) (l : String),
      tallyCount (rs.foldl (fun a r => bumpVote a r.label r.confidence) acc) l =
        tallyCount acc l + (rs.filter (fun r => r.label = l)).length := by
  induction rs with
  | nil => intro acc l; simp
  | cons r rs ih =>
    intro acc l
    rw [List.foldl_cons, ih, bumpVote_count]
    by_cases h : r.label = l
    · simp [List.filter_cons, h]
      omega
    · simp [List.filter_cons, h]

lemma tallyCount_eq_filter_length (rs : List ClassificationResult) (l : String) :
    tallyCount (tallyVotes rs) l = (rs.filter (fun r => r.label = l)).length := by
  have := tally_go_count rs [] l
  simpa [tallyVotes, tallyCount] using this

lemma tally_go_confs (rs : List ClassificationResult) :
    ∀ (acc : List TallyEntry) (l : String),
      tallyConfs (rs.foldl (fun a r => bumpVote a r.label r.confidence) acc) l =
        tallyConfs acc l ++ ((rs.filter (fun r => r.label = l)).map (fun r => r.confidence)) := by
  induction rs with
  | nil => intro acc l; simp
  | cons r rs ih =>
    intro acc l
    rw [List.foldl_cons, ih, bumpVote_confs]
    by_cases h : r.label = l
    · simp [List.filter_cons, h]
    · simp [List.filter_cons, h]

lemma tallyConfs_eq_filter_map (rs : List ClassificationResult) (l : String) :
    tallyConfs (tallyVotes rs) l =
      (rs.filter (fun r => r.label = l)).map (fun r => r.confidence) := by
  have := tally_go_confs rs [] l
  simpa [tallyVotes, tallyConfs] using this

/-- A sample classification result used in the concrete scenarios. -/
def sampleResult (agent_id label : String) (confidence : Rat) : ClassificationResult :=
  { request_id := "req-1", agent_id := agent_id, label := label,
    confidence := confidence,
    top_k := [{ label := label, confidence := confidence, rank := 1 }],
    latency_ms := 0 }

/-- The ensemble scenario of spec section 8: pneumonia(0.8), pneumonia(0.75),
normal(0.6). -/
def exEnsembleResults : List ClassificationResult :=
  [sampleResult "agent-a" "pneumonia" (8/10),
   sampleResult "agent-b" "pneumonia" (75/100),
   sampleResult "agent-c" "normal" (6/10)]

lemma bumpVote_ne_nil (acc : List TallyEntry) (lbl : String) (c : Rat) :
    bumpVote acc lbl c ≠ [] := by
  cases acc with
  | nil => simp [bumpVote]
  | cons a acc => simp only [bumpVote]; split_ifs <;> simp

lemma tally_go_ne_nil (rs : List ClassificationResult) :
    ∀ acc : List TallyEntry, acc ≠ [] →
      rs.foldl (fun a r => bumpVote a r.label r.confidence) acc ≠ [] := by
  induction rs with
  | nil => intro acc h; simpa using h
  | cons r rs ih =>
    intro acc _
    rw [List.foldl_cons]
    exact ih _ (bumpVote_ne_nil acc r.label r.confidence)

lemma tallyVotes_ne_nil {rs : List ClassificationResult} (h : rs ≠ []) :
    tallyVotes rs ≠ [] := by
  rcases rs with _ | ⟨r, rs⟩
  · exact absurd rfl h
  · rw [tallyVotes, List.foldl_cons]
    exact tally_go_ne_nil rs _ (bumpVote_ne_nil [] r.label r.confidence)

/-- C10: calling `Verifier.verify` with an empty result list never raises; it
returns a report with status FAIL, recommendation abort, an empty
tests_performed list, notes "No results to verify", and the request_id of the
input request, whatever the configuration. -/
theorem C10_verify_empty_results (cfg : VerificationConfig)
    (agent_url : Option String) (slim_client : Bool) (aug : AugEnv)
    (request_id : String) :
    Verifier.verify cfg agent_url slim_client aug request_id [] =
      { request_id := request_id, status := VerificationStatus.FAIL,
        tests_performed := [], disagreement_analysis := none,
        recommendation := VerificationRecommendation.abort,
        notes := "No results to verify" } := rfl

/-- C5: the confidence gate with thresholds (0.75, 0.6) is a pure three-band
function of the result's confidence: at least 0.75 passes with
recommendation accept, the band [0.6, 0.75) fails with replan_ensemble, and
below 0.6 fails with human_review; concretely 0.9 passes, 0.65 fails with
replan_ensemble, 0.3 fails with human_review. -/
theorem C5_confidence_gate (r : ClassificationResult) :
    (75/100 ≤ r.confidence →
      (ConfidenceGate.verify (75/100) (6/10) r).result = VerificationTestResult.pass ∧
      (ConfidenceGate.verify (75/100) (6/10) r).recommendation =
        some VerificationRecommendation.accept) ∧
    (6/10 ≤ r.confidence → r.confidence < 75/100 →
      (ConfidenceGate.verify (75/100) (6/10) r).result = VerificationTestResult.fail ∧
      (ConfidenceGate.verify (75/100) (6/10) r).recommendation =
        some VerificationRecommendation.replan_ensemble) ∧
    (r.confidence < 6/10 →
      (ConfidenceGate.verify (75/100) (6/10) r).result = VerificationTestResult.fail ∧
      (ConfidenceGate.verify (75/100) (6/10) r).recommendation =
        some VerificationRecommendation.human_review) ∧
    ((ConfidenceGate.verify (75/100) (6/10) (sampleResult "a" "x" (9/10))).result =
        VerificationTestResult.pass ∧
     (ConfidenceGate.verify (75/100) (6/10) (sampleResult "a" "x" (65/100))).result =
        VerificationTestResult.fail ∧
     (ConfidenceGate.verify (75/100) (6/10) (sampleResult "a" "x" (65/100))).recommendation =
        some VerificationRecommendation.replan_ensemble ∧
     (ConfidenceGate.verify (75/100) (6/10) (sampleResult "a" "x" (3/10))).result =
        VerificationTestResult.fail ∧
     (ConfidenceGate.verify (75/100) (6/10) (sampleResult "a" "x" (3/10))).recommendation =
        some VerificationRecommendation.human_review) := by
  refine ⟨fun h => ?_, fun h1 h2 => ?_, fun h => ?_,
    by norm_num [ConfidenceGate.verify, sampleResult]⟩
  · unfold ConfidenceGate.verify
    dsimp only
    rw [if_pos h]
    exact ⟨rfl, rfl⟩
  · unfold ConfidenceGate.verify
    dsimp only
    rw [if_neg (not_le.2 h2), if_pos h1]
    exact ⟨rfl, rfl⟩
  · unfold ConfidenceGate.verify
    dsimp only
    rw [if_neg (not_le.2 (lt_of_lt_of_le h (by norm_num))), if_neg (not_le.2 h)]
    exact ⟨rfl, rfl⟩

/-- C5 witness: the gate theorem applied at the three concrete confidences. -/
theorem C5_confidence_gate_witness :
    ((ConfidenceGate.verify (75/100) (6/10) (sampleResult "a" "x" (9/10))).result =
        VerificationTestResult.pass ∧
      (ConfidenceGate.verify (75/100) (6/10) (sampleResult "a" "x" (9/10))).recommendation =
        some VerificationRecommendation.accept) ∧
    ((ConfidenceGate.verify (75/100) (6/10) (sampleResult "b" "x" (65/100))).result =
        VerificationTestResult.fail ∧
      (ConfidenceGate.verify (75/100) (6/10) (sampleResult "b" "x" (65/100))).recommendation =
        some VerificationRecommendation.replan_ensemble) ∧
    ((ConfidenceGate.verify (75/100) (6/10) (sampleResult "c" "x" (3/10))).result =
        VerificationTestResult.fail ∧
      (ConfidenceGate.verify (75/100) (6/10) (sampleResult "c" "x" (3/10))).recommendation =
        some VerificationRecommendation.human_review) :=
  ⟨(C5_confidence_gate (sampleResult "a" "x" (9/10))).1 (by norm_num [sampleResult]),
   (C5_confidence_gate (sampleResult "b" "x" (65/100))).2.1 (by norm_num [sampleResult])
     (by norm_num [sampleResult]),
   (C5_confidence_gate (sampleResult "c" "x" (3/10))).2.2.1 (by norm_num [sampleResult])⟩

/-- C6 counterexample: on the scenario pneumonia(0.8), pneumonia(0.75),
normal(0.6) the agreement rate is 2/3, which is strictly below the 0.67
threshold, so the ensemble vote FAILs with recommendation human_review —
contradicting the claimed PASS with a 0.775-confidence ensemble result. -/
theorem C6_counterexample :
    (EnsembleVoter.verify (67/100) exEnsembleResults).1.agreement_rate = some (2/3) ∧
    ¬ ((2 : Rat)/3 ≥ 67/100) ∧
    (EnsembleVoter.verify (67/100) exEnsembleResults).1.result = VerificationTestResult.fail ∧
    (EnsembleVoter.verify (67/100) exEnsembleResults).1.recommendation =
      some VerificationRecommendation.human_review := by
  have ht : tallyVotes exEnsembleResults =
      [("pneumonia", 2, [8/10, 75/100]), ("normal", 1, [6/10])] := rfl
  simp only [EnsembleVoter.verify, ht]
  simp [majorityLabelOf, majorityEntry, pickMaxVote, maxVotes, tallyConfs, meanConfidence,
    exEnsembleResults]
  norm_num

/-- C6 (amended): for two or more results the ensemble vote computes
agreement_rate = max_votes / total_votes over a per-label tally; the majority
label is the first-seen entry attaining the maximal vote count and is one of
the observed labels; rate at or above the threshold yields PASS/accept with
combined confidence the mean of the majority-label confidences, otherwise
FAIL/human_review with a DisagreementAnalysis carrying the rate and the vote
distribution.  On the concrete scenario the rate 2/3 falls below the 0.67
threshold, so the vote FAILs with human_review — while get_ensemble_result
still combines to pneumonia with confidence 0.775. -/
theorem C6_ensemble_vote_amended :
    (∀ (θ : Rat) (results : List ClassificationResult), 2 ≤ results.length →
      (EnsembleVoter.verify θ results).1.agreement_rate =
        some ((maxVotes (tallyVotes results) : Rat) / (results.length : Rat)) ∧
      (∀ lbl, tallyCount (tallyVotes results) lbl =
        (results.filter (fun r => r.label = lbl)).length) ∧
      (∃ e, majorityEntry (tallyVotes results) = some e ∧
        majorityLabelOf (tallyVotes results) = e.1 ∧
        e.1 ∈ results.map (fun r => r.label) ∧
        e.2.1 = maxVotes (tallyVotes results) ∧
        majorityEntry (tallyVotes results) =
          (tallyVotes results).find?
            (fun x => decide (maxVotes (tallyVotes results) ≤ x.2.1))) ∧
      (((maxVotes (tallyVotes results) : Rat) / (results.length : Rat) ≥ θ) →
        (EnsembleVoter.verify θ results).1.result = VerificationTestResult.pass ∧
        (EnsembleVoter.verify θ results).1.recommendation =
          some VerificationRecommendation.accept ∧
        (EnsembleVoter.verify θ results).1.avg_confidence =
          some (meanConfidence
            ((results.filter
                (fun r => r.label = majorityLabelOf (tallyVotes results))).map
              (fun r => r.confidence)))) ∧
      (¬ ((maxVotes (tallyVotes results) : Rat) / (results.length : Rat) ≥ θ) →
        (EnsembleVoter.verify θ results).1.result = VerificationTestResult.fail ∧
        (EnsembleVoter.verify θ results).1.recommendation =
          some VerificationRecommendation.human_review ∧
        (EnsembleVoter.verify θ results).2 = some
          { agreement_rate := (maxVotes (tallyVotes results) : Rat) / (results.length : Rat),
            conflicting_labels := (tallyVotes results).map (fun e => e.1),
            vote_distribution := (tallyVotes results).map (fun e => (e.1, e.2.1)) })) ∧
    ((EnsembleVoter.verify (67/100) exEnsembleResults).1.result =
        VerificationTestResult.fail ∧
      (EnsembleVoter.verify (67/100) exEnsembleResults).1.agreement_rate = some (2/3) ∧
      (EnsembleVoter.verify (67/100) exEnsembleResults).1.recommendation =
        some VerificationRecommendation.human_review ∧
      (EnsembleVoter.get_ensemble_result exEnsembleResults).map
          (fun r => (r.label, r.confidence, r.agent_id)) =
        some ("pneumonia", 31/40, "ensemble")) := by
  constructor
  · intro θ results h2
    have hne : results ≠ [] := by
      intro h; rw [h] at h2; simp at h2
    have htne : tallyVotes results ≠ [] := tallyVotes_ne_nil hne
    obtain ⟨e, he, hmem, hmax⟩ := majorityEntry_spec htne
    have hml : majorityLabelOf (tallyVotes results) = e.1 := by
      rw [majorityLabelOf, he]; rfl
    have hfind := majorityEntry_eq_find _ htne
    have hnotlt : ¬ (results.length < 2) := not_lt.2 h2
    unfold EnsembleVoter.verify
    rw [if_neg hnotlt]
    dsimp only
    split_ifs with hrate
    · refine ⟨rfl, fun lbl => tallyCount_eq_filter_length results lbl,
        ⟨e, he, hml, mem_tally_label hmem, hmax, hfind⟩,
        fun _ => ⟨rfl, rfl, ?_⟩, fun hc => absurd hrate hc⟩
      rw [← tallyConfs_eq_filter_map]
    · exact ⟨rfl, fun lbl => tallyCount_eq_filter_length results lbl,
        ⟨e, he, hml, mem_tally_label hmem, hmax, hfind⟩,
        fun hc => absurd hc hrate, fun _ => ⟨rfl, rfl, rfl⟩⟩
  · have ht : tallyVotes exEnsembleResults =
        [("pneumonia", 2, [8/10, 75/100]), ("normal", 1, [6/10])] := rfl
    refine ⟨?_, ?_, ?_, ?_⟩ <;>
      (first
        | (simp only [EnsembleVoter.verify, ht]
           simp [majorityLabelOf, majorityEntry, pickMaxVote, maxVotes, tallyConfs,
             meanConfidence, exEnsembleResults]
           norm_num)
        | (simp only [EnsembleVoter.get_ensemble_result, ht]
           simp [majorityLabelOf, majorityEntry, pickMaxVote, tallyConfs, meanConfidence,
             exEnsembleResults, sampleResult]
           norm_num))

/-- C6 witness: the amended ensemble theorem applied to the concrete
three-result scenario, discharging its hypotheses there. -/
theorem C6_ensemble_vote_amended_witness :
    (EnsembleVoter.verify (67/100) exEnsembleResults).1.agreement_rate =
      some ((maxVotes (tallyVotes exEnsembleResults) : Rat) /
        (exEnsembleResults.length : Rat)) ∧
    (EnsembleVoter.verify (67/100) exEnsembleResults).1.result =
      VerificationTestResult.fail :=
  ⟨(C6_ensemble_vote_amended.1 (67/100) exEnsembleResults (by decide)).1,
   ((C6_ensemble_vote_amended.1 (67/100) exEnsembleResults (by decide)).2.2.2.2
      (by
        have ht : tallyVotes exEnsembleResults =
            [("pneumonia", 2, [8/10, 75/100]), ("normal", 1, [6/10])] := rfl
        rw [ht]
        norm_num [maxVotes, exEnsembleResults])).1⟩

lemma confidenceGate_test_name (p u : Rat) (r : ClassificationResult) :
    (ConfidenceGate.verify p u r).test_name = "confidence_threshold" := by
  unfold ConfidenceGate.verify
  dsimp only
  split_ifs <;> rfl

lemma ensembleVoter_test_name (θ : Rat) (rs : List ClassificationResult) :
    (EnsembleVoter.verify θ rs).1.test_name = "ensemble_voting" := by
  unfold EnsembleVoter.verify
  dsimp only
  split_ifs <;> rfl

lemma augTester_test_name (θ : Rat) (slim : Bool) (env : AugEnv) :
    (AugmentationStabilityTester.verify θ slim env).test_name = "augmentation_stability" := by
  unfold AugmentationStabilityTester.verify
  dsimp only
  split_ifs <;> rfl

/-- The two-result list used for the ensemble-gating scenario. -/
def exTwoResults : List ClassificationResult :=
  [sampleResult "agent-a" "pneumonia" (8/10),
   sampleResult "agent-b" "pneumonia" (75/100)]

/-- C7 counterexample: under the default configuration
(`enable_ensemble_voting = False`, the config the planner's `Verifier()` uses)
a two-result verification performs only the confidence test — the
ensemble-voting test is not performed even though two results are present. -/
theorem C7_counterexample :
    2 ≤ exTwoResults.length ∧
    ({} : VerificationConfig).enable_ensemble_voting = false ∧
    (Verifier.verify {} none false unusedAug "req-7" exTwoResults).tests_performed.map
        (fun t => t.test_name) = ["confidence_threshold"] := by
  refine ⟨by decide, rfl, ?_⟩
  rw [show exTwoResults = sampleResult "agent-a" "pneumonia" (8/10) ::
    [sampleResult "agent-b" "pneumonia" (75/100)] from rfl]
  unfold Verifier.verify
  dsimp only
  rw [if_neg (by simp), if_neg (by simp)]
  simp [confidenceGate_test_name]

/-- C7 (amended): the ensemble-voting test is performed exactly when at least
two results are present AND the configuration enables ensemble voting; the
default configuration disables it, so the planner pipeline never runs it. -/
theorem C7_ensemble_gated_by_config (cfg : VerificationConfig)
    (agent_url : Option String) (slim_client : Bool) (aug : AugEnv)
    (request_id : String) (results : List ClassificationResult) :
    (∃ t ∈ (Verifier.verify cfg agent_url slim_client aug request_id
        results).tests_performed, t.test_name = "ensemble_voting") ↔
      (1 < results.length ∧ cfg.enable_ensemble_voting = true) := by
  rcases results with _ | ⟨r, rest⟩
  · simp [Verifier.verify]
  · unfold Verifier.verify
    dsimp only
    by_cases hc : (r :: rest).length > 1 ∧ cfg.enable_ensemble_voting = true
    · rw [if_pos hc]
      constructor
      · intro _; exact hc
      · intro _
        dsimp only
        split_ifs with ha
        · exact ⟨(EnsembleVoter.verify cfg.ensemble_agreement_threshold (r :: rest)).1,
            by simp, ensembleVoter_test_name _ _⟩
        · exact ⟨(EnsembleVoter.verify cfg.ensemble_agreement_threshold (r :: rest)).1,
            by simp, ensembleVoter_test_name _ _⟩
    · rw [if_neg hc]
      constructor
      · intro h
        exfalso
        dsimp only at h
        rcases h with ⟨t, hmem, hname⟩
        split_ifs at hmem with ha
        · simp at hmem
          rcases hmem with hmem | hmem
          · rw [hmem, confidenceGate_test_name] at hname
            exact absurd hname (by decide)
          · rw [hmem, augTester_test_name] at hname
            exact absurd hname (by decide)
        · simp at hmem
          rw [hmem, confidenceGate_test_name] at hname
          exact absurd hname (by decide)
      · intro h; exact absurd h hc

/-- The fixed priority order of the aggregation recommendations:
human_review > replan_ensemble > replan_different_agents > abort
(accept never appears on a failed test and shares the bottom rank). -/
def recommendationPriority : VerificationRecommendation → Nat
  | .human_review => 3
  | .replan_ensemble => 2
  | .replan_different_agents => 1
  | .abort => 0
  | .accept => 0

lemma infix_str_append_right {l : List Char} {s : String} (h : l <:+: s.data)
    (t : String) : l <:+: (s ++ t).data := by
  rw [String.data_append]
  exact h.trans (List.prefix_append _ _).isInfix

lemma infix_str_append_left {l : List Char} {t : String} (h : l <:+: t.data)
    (s : String) : l <:+: (s ++ t).data := by
  rw [String.data_append]
  exact h.trans (List.suffix_append _ _).isInfix

lemma self_infix_quoted (n : String) : n.data <:+: (squote ++ n ++ squote).data := by
  rw [String.data_append, String.data_append]
  exact List.infix_append _ _ _

lemma mem_data_joinQuoted {n : String} {names : List String} (h : n ∈ names) :
    n.data <:+: (joinQuoted names).data := by
  induction names with
  | nil => cases h
  | cons a names ih =>
    rcases names with _ | ⟨b, rest⟩
    · have hn : n = a := by simpa using h
      subst hn
      exact self_infix_quoted n
    · rcases List.mem_cons.1 h with rfl | h
      · show n.data <:+: (squote ++ n ++ squote ++ ", " ++ joinQuoted (b :: rest)).data
        exact infix_str_append_right (infix_str_append_right (self_infix_quoted n) _) _
      · show n.data <:+: (squote ++ a ++ squote ++ ", " ++ joinQuoted (b :: rest)).data
        exact infix_str_append_left (ih h) _

lemma mem_data_pythonStrListRepr {n : String} {names : List String} (h : n ∈ names) :
    n.data <:+: (pythonStrListRepr names).data := by
  show n.data <:+: ("[" ++ joinQuoted names ++ "]").data
  exact infix_str_append_right (infix_str_append_left (mem_data_joinQuoted h) _) _

/-- C8: aggregation over verification tests: with no failed test the overall
status is PASS with recommendation accept; with failed tests (each carrying a
non-accept recommendation, as every failing gate in this codebase does) the
status is FAIL, the recommendation is the highest-priority one among the
failed tests' recommendations in the order human_review > replan_ensemble >
replan_different_agents > abort, and the notes contain every failing test's
name. -/
theorem C8_aggregation (tests : List VerificationTest) :
    (tests.filter (fun t => t.result = VerificationTestResult.fail) = [] →
      (Verifier.aggregate_results tests).1 = VerificationStatus.PASS ∧
      (Verifier.aggregate_results tests).2.1 = VerificationRecommendation.accept) ∧
    (tests.filter (fun t => t.result = VerificationTestResult.fail) ≠ [] →
      (∀ t ∈ tests.filter (fun t => t.result = VerificationTestResult.fail),
        ∃ rec, t.recommendation = some rec ∧ rec ≠ VerificationRecommendation.accept) →
      (Verifier.aggregate_results tests).1 = VerificationStatus.FAIL ∧
      (Verifier.aggregate_results tests).2.1 ∈
        (tests.filter (fun t => t.result = VerificationTestResult.fail)).filterMap
          (fun t => t.recommendation) ∧
      (∀ rec ∈ (tests.filter (fun t => t.result = VerificationTestResult.fail)).filterMap
          (fun t => t.recommendation),
        recommendationPriority rec ≤
          recommendationPriority (Verifier.aggregate_results tests).2.1) ∧
      (∀ t ∈ tests.filter (fun t => t.result = VerificationTestResult.fail),
        t.test_name.data <:+: (Verifier.aggregate_results tests).2.2.data)) := by
  constructor
  · intro hempty
    unfold Verifier.aggregate_results
    rw [if_pos (by simp [hempty])]
    exact ⟨rfl, rfl⟩
  · intro hne hrec
    have hall : ∀ rec ∈ (tests.filter
        (fun t => t.result = VerificationTestResult.fail)).filterMap
          (fun t => t.recommendation), rec ≠ VerificationRecommendation.accept := by
      intro rec hm
      rcases List.mem_filterMap.1 hm with ⟨t, ht, hrt⟩
      rcases hrec t ht with ⟨rec', hrt', hne'⟩
      rw [hrt'] at hrt
      exact (Option.some_inj.1 hrt) ▸ hne'
    have hrecs_ne : (tests.filter
        (fun t => t.result = VerificationTestResult.fail)).filterMap
          (fun t => t.recommendation) ≠ [] := by
      rcases List.exists_mem_of_ne_nil _ hne with ⟨t0, ht0⟩
      rcases hrec t0 ht0 with ⟨rec0, hrt0, _⟩
      intro hnil
      have : rec0 ∈ (tests.filter
          (fun t => t.result = VerificationTestResult.fail)).filterMap
            (fun t => t.recommendation) := List.mem_filterMap.2 ⟨t0, ht0, hrt0⟩
      rw [hnil] at this
      cases this
    unfold Verifier.aggregate_results
    rw [if_neg (by simp [hne])]
    dsimp only
    refine ⟨rfl, ?_, ?_, ?_⟩
    rotate_left 2
    · intro t ht
      exact infix_str_append_left
        (mem_data_pythonStrListRepr (List.mem_map_of_mem (fun t => t.test_name) ht)) _
    · split_ifs with h1 h2 h3
      · exact h1
      · exact h2
      · exact h3
      · rcases List.exists_mem_of_ne_nil _ hrecs_ne with ⟨rec0, hm0⟩
        have : rec0 = VerificationRecommendation.abort := by
          cases rec0
          · exact absurd rfl (hall _ hm0)
          · exact absurd hm0 h2
          · exact absurd hm0 h3
          · exact absurd hm0 h1
          · rfl
        exact this ▸ hm0
    · intro rec hm
      split_ifs with h1 h2 h3
      · cases rec <;> simp [recommendationPriority]
      · cases rec
        · simp [recommendationPriority]
        · simp [recommendationPriority]
        · simp [recommendationPriority]
        · exact absurd hm h1
        · simp [recommendationPriority]
      · cases rec
        · simp [recommendationPriority]
        · exact absurd hm h2
        · simp [recommendationPriority]
        · exact absurd hm h1
        · simp [recommendationPriority]
      · cases rec
        · simp [recommendationPriority]
        · exact absurd hm h2
        · exact absurd hm h3
        · exact absurd hm h1
        · simp [recommendationPriority]

/-- Two failed tests used to exercise the aggregation rules concretely. -/
def exFailedTests : List VerificationTest :=
  [{ test_name := "confidence_threshold", result := VerificationTestResult.fail,
     recommendation := some VerificationRecommendation.replan_ensemble },
   { test_name := "ensemble_voting", result := VerificationTestResult.fail,
     recommendation := some VerificationRecommendation.human_review }]

/-- C8 witness: the aggregation theorem applied to a concrete pair of failed
tests, discharging its hypotheses there. -/
theorem C8_aggregation_witness :
    (Verifier.aggregate_results exFailedTests).1 = VerificationStatus.FAIL ∧
    (Verifier.aggregate_results exFailedTests).2.1 ∈
      (exFailedTests.filter (fun t => t.result = VerificationTestResult.fail)).filterMap
        (fun t => t.recommendation) := by
  have h := (C8_aggregation exFailedTests).2 (by decide) ?_
  · exact ⟨h.1, h.2.1⟩
  · intro t ht
    have ht' : t = exFailedTests.get ⟨0, by decide⟩ ∨ t = exFailedTests.get ⟨1, by decide⟩ := by
      simp [exFailedTests] at ht ⊢
      tauto
    rcases ht' with rfl | rfl
    · exact ⟨VerificationRecommendation.replan_ensemble, rfl, by decide⟩
    · exact ⟨VerificationRecommendation.human_review, rfl, by decide⟩


/-- C4 counterexample: the free text "not a valid response", which matches
neither the JSON shape nor the Label/Confidence line format, is NOT turned
into the synthetic parse_error/0.0 result: the parser returns the whole text
as the label with the default confidence 0.8. -/
theorem C4_counterexample :
    (parse_classification_result (fun _ => none) "fresh-id" "agent-1"
        "not a valid response").label = "not a valid response" ∧
    (parse_classification_result (fun _ => none) "fresh-id" "agent-1"
        "not a valid response").confidence = 8/10 ∧
    ¬ (parse_classification_result (fun _ => none) "fresh-id" "agent-1"
        "not a valid response").label = "parse_error" ∧
    ¬ (parse_classification_result (fun _ => none) "fresh-id" "agent-1"
        "not a valid response").confidence = 0 := by
  have hfold : (splitChar (Char.ofNat 10) "not a valid response".data).foldl parseLineStep
      (stripChars "not a valid response".data, 8/10) =
      ("not a valid response".data, (8 : Rat)/10) := rfl
  unfold parse_classification_result
  rw [if_neg (by decide)]
  dsimp only
  rw [hfold, if_pos (by norm_num)]
  exact ⟨rfl, rfl, by decide, by norm_num⟩

/-- C4 (amended): parsing is total and two-shape, but the parse_error/0.0
fallback only fires when parsing raises: the text
"Label: cat\nConfidence: 0.91" parses to label "cat" with confidence 0.91;
free text matching neither shape is returned as a result whose label is the
stripped text itself with default confidence 0.8; a structured-shape text
(leading brace) whose JSON decoding fails yields the synthetic
parse_error/0.0 result; no exception propagates in any case. -/
theorem C4_parse_two_shape_amended :
    (∀ (jsonDecode : String → Option ClassificationResult) (fid aid : String),
      (parse_classification_result jsonDecode fid aid
          "Label: cat\nConfidence: 0.91").label = "cat" ∧
      (parse_classification_result jsonDecode fid aid
          "Label: cat\nConfidence: 0.91").confidence = 91/100) ∧
    (∀ (jsonDecode : String → Option ClassificationResult) (fid aid : String),
      (parse_classification_result jsonDecode fid aid
          "not a valid response").label = "not a valid response" ∧
      (parse_classification_result jsonDecode fid aid
          "not a valid response").confidence = 8/10) ∧
    (∀ (jsonDecode : String → Option ClassificationResult) (fid aid text : String),
      "\x7b".data.isPrefixOf text.data = true → jsonDecode text = none →
      parse_classification_result jsonDecode fid aid text = parseErrorResult fid aid) := by
  refine ⟨fun jd fid aid => ?_, fun jd fid aid => ?_, fun jd fid aid text hb hj => ?_⟩
  · have hfold : (splitChar (Char.ofNat 10) "Label: cat\nConfidence: 0.91".data).foldl
        parseLineStep (stripChars "Label: cat\nConfidence: 0.91".data, 8/10) =
        ("cat".data, ((0 : Nat) : Rat) + ((91 : Nat) : Rat) / ((10 : Rat) ^ 2)) := rfl
    unfold parse_classification_result
    rw [if_neg (by decide)]
    dsimp only
    rw [hfold, if_pos (by push_cast; norm_num)]
    refine ⟨rfl, ?_⟩
    push_cast
    norm_num
  · have hfold : (splitChar (Char.ofNat 10) "not a valid response".data).foldl parseLineStep
        (stripChars "not a valid response".data, 8/10) =
        ("not a valid response".data, (8 : Rat)/10) := rfl
    unfold parse_classification_result
    rw [if_neg (by decide)]
    dsimp only
    rw [hfold, if_pos (by norm_num)]
    exact ⟨rfl, rfl⟩
  · unfold parse_classification_result
    rw [if_pos hb, hj]

/-- C4 witness: the amended parser theorem applied at a concrete
structured-shape text whose JSON decoding fails. -/
theorem C4_parse_two_shape_amended_witness :
    parse_classification_result (fun _ => none) "fresh-id" "agent-1"
        "\x7bnot json" = parseErrorResult "fresh-id" "agent-1" :=
  C4_parse_two_shape_amended.2.2 (fun _ => none) "fresh-id" "agent-1"
    "\x7bnot json" (by decide) rfl

/-- A first-iteration state with min_confidence 0.5 and five discovered
agents, as in the router example of spec section 8. -/
def exRouteState : PlannerState :=
  { request_id := "req-3", min_confidence := 1/2, iteration := 1,
    discovered_agents := ["a1", "a2", "a3", "a4", "a5"], results := [],
    verification_status := "", verification_recommendation := "",
    mismatch_warning := none, error := none }

/-- C3 (code bug): at iteration 1 with min_confidence 0.5 and five discovered
agents, the conditional edge `_should_use_ensemble` routes to the ensemble
branch (strategy parallel_ensemble) because its third disjunct fires on
agent_count >= 3 — while `_route_decision_node`'s own reason message for the
same inputs says "single_best is efficient", matching the spec's rule table.
The code contradicts its own message. -/
theorem C3_router_divergence :
    routedStrategy 1 (1/2) 5 = ExecutionStrategy.parallel_ensemble ∧
    routeDecisionReason 1 (1/2) 5 =
      "Multiple agents available, single_best is efficient" ∧
    shouldUseEnsemble exRouteState = RouteChoice.ensemble ∧
    routedStrategy 2 (7/10) 5 = ExecutionStrategy.parallel_ensemble := by
  refine ⟨?_, ?_, ?_, ?_⟩
  · unfold routedStrategy
    rw [if_pos (by norm_num)]
  · unfold routeDecisionReason
    rw [if_neg (by norm_num), if_neg (by norm_num), if_pos (by norm_num)]
  · unfold shouldUseEnsemble exRouteState
    dsimp only
    rw [if_neg (by decide), if_neg (by decide), if_pos (by norm_num)]
  · unfold routedStrategy
    rw [if_pos (by norm_num)]

/-! Helper lemmas about the planner state machine. -/

lemma supervisorNode_iteration (s : PlannerState) (d : List String) :
    (supervisorNode s d).iteration = s.iteration := by
  unfold supervisorNode; split_ifs <;> rfl

lemma supervisorNode_of_ne_nil {s : PlannerState} {d : List String} (h : d ≠ []) :
    supervisorNode s d = { s with discovered_agents := d } := by
  unfold supervisorNode
  rw [if_neg (by simpa using h)]

lemma executeTasksNode_iteration (s : PlannerState) (d : List ClassificationResult) :
    (executeTasksNode s d).iteration = s.iteration := by
  unfold executeTasksNode; split_ifs <;> rfl

lemma executeTasksNode_of_ne_nil {s : PlannerState} {d : List ClassificationResult}
    (h : d ≠ []) : executeTasksNode s d = { s with results := d } := by
  unfold executeTasksNode
  rw [if_neg (by simpa using h)]

lemma executeTasksNode_error_of_none {s : PlannerState} {d : List ClassificationResult}
    (h : (executeTasksNode s d).error = none) : d ≠ [] ∧ s.error = none := by
  unfold executeTasksNode at h
  split_ifs at h with hd
  refine ⟨?_, h⟩
  intro hnil
  rw [hnil] at hd
  exact hd rfl

lemma fallbackReflection_iteration (s : PlannerState) :
    (fallbackReflection s).iteration = s.iteration := by
  unfold fallbackReflection
  dsimp only
  split_ifs <;> rfl

lemma fallbackReflection_error (s : PlannerState) :
    (fallbackReflection s).error = s.error := by
  unfold fallbackReflection
  dsimp only
  split_ifs <;> rfl

lemma fallbackReflection_results (s : PlannerState) :
    (fallbackReflection s).results = s.results := by
  unfold fallbackReflection
  dsimp only
  split_ifs <;> rfl

lemma reflectionNode_iteration (s : PlannerState) (o : ReflectionOutcome) :
    (reflectionNode s o).iteration = s.iteration := by
  unfold reflectionNode
  split_ifs
  · rfl
  · cases o with
    | llm sc reason mm => dsimp only; split_ifs <;> rfl
    | fallback => exact fallbackReflection_iteration s

lemma reflectionNode_error (s : PlannerState) (o : ReflectionOutcome) :
    (reflectionNode s o).error = s.error := by
  unfold reflectionNode
  split_ifs
  · rfl
  · cases o with
    | llm sc reason mm => dsimp only; split_ifs <;> rfl
    | fallback => exact fallbackReflection_error s

lemma reflectionNode_results (s : PlannerState) (o : ReflectionOutcome) :
    (reflectionNode s o).results = s.results := by
  unfold reflectionNode
  split_ifs
  · rfl
  · cases o with
    | llm sc reason mm => dsimp only; split_ifs <;> rfl
    | fallback => exact fallbackReflection_results s

lemma reflectionNode_mismatch {s : PlannerState} (hres : ¬ s.results.isEmpty)
    (sc : Bool) (reason : String) :
    reflectionNode s (ReflectionOutcome.llm sc reason true) =
      { s with verification_status := "PASS",
               verification_recommendation := "success",
               mismatch_warning := some reason } := by
  unfold reflectionNode
  rw [if_neg hres]
  dsimp only
  rw [if_pos rfl]

lemma checkStatusNode_preserves (s : PlannerState) :
    (checkStatusNode s).verification_status = s.verification_status ∧
    (checkStatusNode s).verification_recommendation = s.verification_recommendation ∧
    (checkStatusNode s).error = s.error ∧
    (checkStatusNode s).results = s.results ∧
    (checkStatusNode s).mismatch_warning = s.mismatch_warning := by
  unfold checkStatusNode
  split_ifs <;> exact ⟨rfl, rfl, rfl, rfl, rfl⟩

lemma checkStatusNode_replan_branch {s : PlannerState}
    (h1 : s.verification_status ≠ "PASS")
    (h2 : s.verification_recommendation ≠ "human_review")
    (h3 : s.iteration < MAX_REPLANS) :
    checkStatusNode s = { s with iteration := s.iteration + 1 } := by
  unfold checkStatusNode
  rw [if_neg h1, if_neg h2, if_neg (not_le.2 h3)]

lemma checkStatusNode_frozen {s : PlannerState}
    (h : s.verification_status = "PASS" ∨
      s.verification_recommendation = "human_review" ∨ MAX_REPLANS ≤ s.iteration) :
    checkStatusNode s = s := by
  unfold checkStatusNode
  split_ifs with a b c
  · rfl
  · rfl
  · rfl
  · rcases h with h | h | h
    · exact absurd h a
    · exact absurd h b
    · exact absurd h c

lemma checkStatusNode_iteration_le {s : PlannerState} (h : s.iteration ≤ MAX_REPLANS) :
    (checkStatusNode s).iteration ≤ MAX_REPLANS := by
  unfold checkStatusNode
  split_ifs with a b c
  · exact h
  · exact h
  · exact h
  · have : s.iteration < MAX_REPLANS := lt_of_not_ge c
    dsimp only
    omega

lemma decideNextAction_eq_replan {s : PlannerState}
    (h : decideNextAction s = NextAction.replan) :
    s.error = none ∧ s.verification_status ≠ "PASS" ∧
    s.verification_recommendation ≠ "human_review" ∧ s.iteration < MAX_REPLANS := by
  unfold decideNextAction at h
  split_ifs at h with h1 h2 h3 h4
  exact ⟨by simpa using h1, h2, h3, lt_of_not_ge h4⟩

lemma decideNextAction_error_of_isSome {s : PlannerState} (h : s.error.isSome) :
    decideNextAction s = NextAction.error := by
  unfold decideNextAction
  rw [if_pos h]

lemma finalizeResponseNode_iterations (s : PlannerState) :
    (finalizeResponseNode s).iterations = s.iteration := by
  unfold finalizeResponseNode
  split_ifs <;> (rcases s.mismatch_warning with _ | w <;> rfl)

lemma finalizeResponseNode_status (s : PlannerState) :
    (finalizeResponseNode s).status = "COMPLETED" ∨
    (finalizeResponseNode s).status = "COMPLETED_WITH_WARNING" ∨
    (finalizeResponseNode s).status = "NEEDS_REVIEW" ∨
    (finalizeResponseNode s).status = "INCONCLUSIVE" ∨
    (finalizeResponseNode s).status = "FAILED" := by
  unfold finalizeResponseNode
  split_ifs
  all_goals rcases s.mismatch_warning with _ | w
  all_goals first
    | exact Or.inl rfl
    | exact Or.inr (Or.inl rfl)
    | exact Or.inr (Or.inr (Or.inl rfl))
    | exact Or.inr (Or.inr (Or.inr (Or.inl rfl)))
    | exact Or.inr (Or.inr (Or.inr (Or.inr rfl)))

lemma finalizeResponseNode_mismatch {s : PlannerState}
    (hst : s.verification_status = "PASS") (hres : ¬ s.results.isEmpty)
    {w : String} (hw : s.mismatch_warning = some w) :
    (finalizeResponseNode s).status = "COMPLETED_WITH_WARNING" ∧
    (finalizeResponseNode s).mismatch_warning = some w ∧
    (finalizeResponseNode s).iterations = s.iteration := by
  unfold finalizeResponseNode
  rw [if_pos ⟨hst, hres⟩, hw]
  exact ⟨rfl, rfl, rfl⟩

lemma finalizeResponseNode_inconclusive {s : PlannerState}
    (h : (finalizeResponseNode s).status = "INCONCLUSIVE") :
    (finalizeResponseNode s).mismatch_warning = none ∧
    ¬ (s.verification_status = "PASS" ∧ ¬ s.results.isEmpty) := by
  by_cases a : s.verification_status = "PASS" ∧ ¬ s.results.isEmpty
  · exfalso
    unfold finalizeResponseNode at h
    rw [if_pos a] at h
    rcases hw : s.mismatch_warning with _ | w <;> rw [hw] at h <;> simp at h
  · unfold finalizeResponseNode at h ⊢
    rw [if_neg a] at h ⊢
    by_cases b : s.verification_recommendation = "human_review"
    · rw [if_pos b] at h
      simp at h
    · rw [if_neg b] at h ⊢
      by_cases c : s.iteration ≥ MAX_REPLANS
      · rw [if_pos c]
        exact ⟨rfl, a⟩
      · rw [if_neg c] at h
        simp at h

lemma pipeline_iteration (s : PlannerState) (inp : IterInput) :
    (reflectionNode (executeTasksNode (supervisorNode s inp.discovered) inp.dispatched)
      inp.reflection).iteration = s.iteration := by
  rw [reflectionNode_iteration, executeTasksNode_iteration, supervisorNode_iteration]

lemma runIteration_next_replan {s : PlannerState} {inp : IterInput} {s' : PlannerState}
    (h : runIteration s inp = IterOutcome.next s') :
    decideNextAction s' = NextAction.replan ∧
    s'.iteration = s.iteration + 1 ∧ s'.iteration < MAX_REPLANS := by
  unfold runIteration at h
  by_cases hr : shouldUseEnsemble (supervisorNode s inp.discovered) = RouteChoice.error
  · rw [if_pos hr] at h
    cases h
  · rw [if_neg hr] at h
    dsimp only at h
    rcases hd : decideNextAction (checkStatusNode (reflectionNode
        (executeTasksNode (supervisorNode s inp.discovered) inp.dispatched)
        inp.reflection)) with _ | _ | _ | _ | _ <;> rw [hd] at h <;> (try dsimp only at h)
    · cases h
    · injection h with h'
      subst h'
      obtain ⟨_, h2, h3, h4⟩ := decideNextAction_eq_replan hd
      have hpres := checkStatusNode_preserves (reflectionNode
        (executeTasksNode (supervisorNode s inp.discovered) inp.dispatched)
        inp.reflection)
      by_cases hlt : (reflectionNode (executeTasksNode (supervisorNode s inp.discovered)
          inp.dispatched) inp.reflection).iteration < MAX_REPLANS
      · rw [checkStatusNode_replan_branch (hpres.1 ▸ h2) (hpres.2.1 ▸ h3) hlt] at hd h4 ⊢
        refine ⟨hd, ?_, ?_⟩
        · dsimp only
          rw [pipeline_iteration]
        · dsimp only at h4 ⊢
          exact h4
      · exfalso
        rw [checkStatusNode_frozen (Or.inr (Or.inr (le_of_not_lt hlt)))] at h4
        exact hlt h4
    · cases h
    · cases h
    · cases h

lemma runIteration_done_facts {s : PlannerState} {inp : IterInput} {r : FinalResponse}
    (hle : s.iteration ≤ MAX_REPLANS) (h : runIteration s inp = IterOutcome.done r) :
    r.iterations ≤ MAX_REPLANS ∧
    (r.status = "COMPLETED" ∨ r.status = "COMPLETED_WITH_WARNING" ∨
     r.status = "NEEDS_REVIEW" ∨ r.status = "INCONCLUSIVE" ∨ r.status = "FAILED") := by
  unfold runIteration at h
  by_cases hr : shouldUseEnsemble (supervisorNode s inp.discovered) = RouteChoice.error
  · rw [if_pos hr] at h
    injection h with h'
    subst h'
    refine ⟨?_, Or.inr (Or.inr (Or.inr (Or.inr rfl)))⟩
    show (supervisorNode s inp.discovered).iteration ≤ MAX_REPLANS
    rw [supervisorNode_iteration]
    exact hle
  · rw [if_neg hr] at h
    dsimp only at h
    have hs4le : (checkStatusNode (reflectionNode
        (executeTasksNode (supervisorNode s inp.discovered) inp.dispatched)
        inp.reflection)).iteration ≤ MAX_REPLANS :=
      checkStatusNode_iteration_le (by rw [pipeline_iteration]; exact hle)
    rcases hd : decideNextAction (checkStatusNode (reflectionNode
        (executeTasksNode (supervisorNode s inp.discovered) inp.dispatched)
        inp.reflection)) with _ | _ | _ | _ | _ <;> rw [hd] at h <;> (try dsimp only at h)
    · injection h with h'
      subst h'
      exact ⟨(finalizeResponseNode_iterations _) ▸ hs4le, finalizeResponseNode_status _⟩
    · cases h
    · injection h with h'
      subst h'
      exact ⟨(finalizeResponseNode_iterations _) ▸ hs4le, finalizeResponseNode_status _⟩
    · injection h with h'
      subst h'
      exact ⟨(finalizeResponseNode_iterations _) ▸ hs4le, finalizeResponseNode_status _⟩
    · injection h with h'
      subst h'
      exact ⟨hs4le, Or.inr (Or.inr (Or.inr (Or.inr rfl)))⟩

lemma runLoop_total_facts (fuel : Nat) :
    ∀ (s : PlannerState) (env : Nat → IterInput),
      s.iteration ≤ MAX_REPLANS → MAX_REPLANS < s.iteration + fuel →
      ∃ r, runLoop fuel s env = some r ∧ r.iterations ≤ MAX_REPLANS ∧
        (r.status = "COMPLETED" ∨ r.status = "COMPLETED_WITH_WARNING" ∨
         r.status = "NEEDS_REVIEW" ∨ r.status = "INCONCLUSIVE" ∨ r.status = "FAILED") := by
  induction fuel with
  | zero => intro s env hle hf; omega
  | succ fuel ih =>
    intro s env hle hf
    unfold runLoop
    rcases hi : runIteration s (env s.iteration) with s' | r
    · obtain ⟨hd, hinc, hlt⟩ := runIteration_next_replan hi
      obtain ⟨r, hr, hfacts⟩ := ih s' env (le_of_lt hlt) (by omega)
      exact ⟨r, by dsimp only; exact hr, hfacts⟩
    · exact ⟨r, rfl, runIteration_done_facts hle hi⟩

lemma not_isEmpty_of_ne_nil {α : Type} {l : List α} (h : l ≠ []) : ¬ l.isEmpty := by
  cases l with
  | nil => exact absurd rfl h
  | cons a l => simp [List.isEmpty]

lemma decideNextAction_error_none {s : PlannerState}
    (h : decideNextAction s ≠ NextAction.error) : s.error = none := by
  unfold decideNextAction at h
  by_cases h1 : s.error.isSome = true
  · rw [if_pos h1] at h
    exact absurd rfl h
  · simpa using h1

lemma shouldUseEnsemble_not_error {s : PlannerState} (he : s.error = none)
    (hd : s.discovered_agents ≠ []) : shouldUseEnsemble s ≠ RouteChoice.error := by
  unfold shouldUseEnsemble
  rw [if_neg (by rw [he]; decide), if_neg (not_isEmpty_of_ne_nil hd)]
  split_ifs <;> simp

lemma decideNextAction_success {s : PlannerState} (he : s.error = none)
    (hst : s.verification_status = "PASS") : decideNextAction s = NextAction.success := by
  unfold decideNextAction
  rw [if_neg (by rw [he]; decide), if_pos hst]

/-- The planner state after the reflection node's mismatch branch fired. -/
def mismatchState (s : PlannerState) (agents : List String)
    (results : List ClassificationResult) (reason : String) : PlannerState :=
  { s with discovered_agents := agents, results := results,
           verification_status := "PASS", verification_recommendation := "success",
           mismatch_warning := some reason }

lemma runIteration_mismatch {s : PlannerState} {inp : IterInput} {sc : Bool}
    {reason : String} (herr : s.error = none) (hdisc : inp.discovered ≠ [])
    (hdisp : inp.dispatched ≠ [])
    (hrefl : inp.reflection = ReflectionOutcome.llm sc reason true) :
    ∃ r, runIteration s inp = IterOutcome.done r ∧
      r.status = "COMPLETED_WITH_WARNING" ∧ r.mismatch_warning = some reason ∧
      r.iterations = s.iteration := by
  have hroute : ¬ (shouldUseEnsemble (supervisorNode s inp.discovered) =
      RouteChoice.error) := by
    rw [supervisorNode_of_ne_nil hdisc]
    exact shouldUseEnsemble_not_error herr hdisc
  have hfinal : checkStatusNode (reflectionNode
      (executeTasksNode (supervisorNode s inp.discovered) inp.dispatched)
      inp.reflection) = mismatchState s inp.discovered inp.dispatched reason := by
    rw [supervisorNode_of_ne_nil hdisc, executeTasksNode_of_ne_nil hdisp, hrefl,
      reflectionNode_mismatch (not_isEmpty_of_ne_nil hdisp) sc reason]
    exact checkStatusNode_frozen (Or.inl rfl)
  have hd : decideNextAction (mismatchState s inp.discovered inp.dispatched reason) =
      NextAction.success := decideNextAction_success herr rfl
  refine ⟨finalizeResponseNode (mismatchState s inp.discovered inp.dispatched reason),
    ?_, ?_, ?_, ?_⟩
  · unfold runIteration
    rw [if_neg hroute]
    dsimp only
    rw [hfinal, hd]
  · exact (finalizeResponseNode_mismatch rfl (not_isEmpty_of_ne_nil hdisp) rfl).1
  · exact (finalizeResponseNode_mismatch rfl (not_isEmpty_of_ne_nil hdisp) rfl).2.1
  · exact (finalizeResponseNode_mismatch rfl (not_isEmpty_of_ne_nil hdisp) rfl).2.2

lemma runIteration_inconclusive {s : PlannerState} {inp : IterInput} {r : FinalResponse}
    (h : runIteration s inp = IterOutcome.done r) (hinc : r.status = "INCONCLUSIVE") :
    r.mismatch_warning = none ∧
    ∀ sc reason, inp.reflection ≠ ReflectionOutcome.llm sc reason true := by
  unfold runIteration at h
  by_cases hr : shouldUseEnsemble (supervisorNode s inp.discovered) = RouteChoice.error
  · rw [if_pos hr] at h
    injection h with h'
    subst h'
    simp [handleErrorNode] at hinc
  · rw [if_neg hr] at h
    dsimp only at h
    rcases hd : decideNextAction (checkStatusNode (reflectionNode
        (executeTasksNode (supervisorNode s inp.discovered) inp.dispatched)
        inp.reflection)) with _ | _ | _ | _ | _ <;> rw [hd] at h <;> (try dsimp only at h)
    all_goals (try cases h)
    all_goals (first
      | exact absurd hinc (by simp [handleErrorNode])
      | (refine ⟨(finalizeResponseNode_inconclusive hinc).1, ?_⟩
         intro sc reason hrefl
         have hnot := (finalizeResponseNode_inconclusive hinc).2
         have herr4 : (checkStatusNode (reflectionNode
             (executeTasksNode (supervisorNode s inp.discovered) inp.dispatched)
             inp.reflection)).error = none :=
           decideNextAction_error_none (by rw [hd]; decide)
         rw [(checkStatusNode_preserves _).2.2.1, reflectionNode_error] at herr4
         obtain ⟨hdisp, _⟩ := executeTasksNode_error_of_none herr4
         have hs2res : (executeTasksNode (supervisorNode s inp.discovered)
             inp.dispatched).results = inp.dispatched := by
           rw [executeTasksNode_of_ne_nil hdisp]
         refine hnot ⟨?_, ?_⟩
         · rw [(checkStatusNode_preserves _).1, hrefl,
             executeTasksNode_of_ne_nil hdisp,
             reflectionNode_mismatch (not_isEmpty_of_ne_nil hdisp) sc reason]
         · rw [(checkStatusNode_preserves _).2.2.2.1, reflectionNode_results, hs2res]
           exact not_isEmpty_of_ne_nil hdisp))

/-- C1: the orchestration loop re-enters the selection stage only on a replan
decision of `_decide_next_action` and only while the (already incremented)
iteration counter is below MAX_REPLANS; the counter starts at 1 and is bumped
exactly on the replan branch of `_check_status_node`; and every run of
`plan_and_execute` terminates with a final response reporting
0 ≤ iterations ≤ MAX_REPLANS. -/
theorem C1_replan_loop_bound :
    (∀ (rid : String) (mc : Rat), (initialState rid mc).iteration = 1) ∧
    (∀ s : PlannerState,
      (s.verification_status ≠ "PASS" → s.verification_recommendation ≠ "human_review" →
        s.iteration < MAX_REPLANS →
        checkStatusNode s = { s with iteration := s.iteration + 1 }) ∧
      (s.verification_status = "PASS" ∨ s.verification_recommendation = "human_review" ∨
        MAX_REPLANS ≤ s.iteration → checkStatusNode s = s)) ∧
    (∀ (s : PlannerState) (inp : IterInput) (s' : PlannerState),
      runIteration s inp = IterOutcome.next s' →
      decideNextAction s' = NextAction.replan ∧
      s'.iteration = s.iteration + 1 ∧ s'.iteration < MAX_REPLANS) ∧
    (∀ (rid : String) (mc : Rat) (env : Nat → IterInput),
      ∃ r, plan_and_execute rid mc env = some r ∧
        0 ≤ r.iterations ∧ r.iterations ≤ MAX_REPLANS) := by
  refine ⟨fun _ _ => rfl,
    fun s => ⟨fun h1 h2 h3 => checkStatusNode_replan_branch h1 h2 h3,
      fun h => checkStatusNode_frozen h⟩,
    fun s inp s' h => runIteration_next_replan h,
    fun rid mc env => ?_⟩
  obtain ⟨r, hr, hle, _⟩ := runLoop_total_facts MAX_REPLANS (initialState rid mc) env
    (by norm_num [initialState, MAX_REPLANS]) (by norm_num [initialState, MAX_REPLANS])
  exact ⟨r, hr, Nat.zero_le _, hle⟩

/-- A first-iteration state for exercising the replan loop concretely. -/
def exStartState : PlannerState := initialState "req-w" (1/2)

/-- An iteration environment whose single low-confidence result makes the
reflection LLM ask for a retry. -/
def exReplanInp : IterInput :=
  { discovered := ["a1", "a2"],
    dispatched := [sampleResult "agent-1" "cat" (1/10)],
    reflection := ReflectionOutcome.llm true "retry" false }

/-- The state after one replan pass on `exStartState` with `exReplanInp`. -/
def exNextState : PlannerState :=
  { request_id := "req-w", min_confidence := 1/2, iteration := 2,
    discovered_agents := ["a1", "a2"],
    results := [sampleResult "agent-1" "cat" (1/10)],
    verification_status := "FAIL", verification_recommendation := "replan",
    mismatch_warning := none, error := none }

lemma runIteration_exReplan :
    runIteration exStartState exReplanInp = IterOutcome.next exNextState := by
  have hroute : ¬ (shouldUseEnsemble (supervisorNode exStartState exReplanInp.discovered) =
      RouteChoice.error) := by
    have hsup : supervisorNode exStartState exReplanInp.discovered =
        { exStartState with discovered_agents := ["a1", "a2"] } := rfl
    rw [hsup]
    unfold shouldUseEnsemble
    rw [if_neg (by decide), if_neg (by decide),
      if_neg (by norm_num [exStartState, initialState])]
    decide
  unfold runIteration
  rw [if_neg hroute]
  rfl

/-- C1 witness: the loop theorem applied to a concrete replanning pass and a
concrete environment, discharging its hypotheses there. -/
theorem C1_replan_loop_bound_witness :
    (checkStatusNode exStartState = { exStartState with iteration := 2 }) ∧
    (decideNextAction exNextState = NextAction.replan ∧
      exNextState.iteration = exStartState.iteration + 1 ∧
      exNextState.iteration < MAX_REPLANS) ∧
    (∃ r, plan_and_execute "req-w" (1/2) (fun _ => exReplanInp) = some r ∧
      0 ≤ r.iterations ∧ r.iterations ≤ MAX_REPLANS) :=
  ⟨(C1_replan_loop_bound.2.1 exStartState).1 (by decide) (by decide) (by decide),
   C1_replan_loop_bound.2.2.1 exStartState exReplanInp exNextState runIteration_exReplan,
   C1_replan_loop_bound.2.2.2 "req-w" (1/2) (fun _ => exReplanInp)⟩

/-- C2: for every request and every behaviour of the network and LLM
environment, `plan_and_execute` terminates with a final response whose status
is one of the five defined values — no transport or parsing exception
reaches the caller. -/
theorem C2_terminal_status (rid : String) (mc : Rat) (env : Nat → IterInput) :
    ∃ r, plan_and_execute rid mc env = some r ∧
      (r.status = "COMPLETED" ∨ r.status = "COMPLETED_WITH_WARNING" ∨
       r.status = "NEEDS_REVIEW" ∨ r.status = "INCONCLUSIVE" ∨
       r.status = "FAILED") := by
  obtain ⟨r, hr, _, hst⟩ := runLoop_total_facts MAX_REPLANS (initialState rid mc) env
    (by norm_num [initialState, MAX_REPLANS]) (by norm_num [initialState, MAX_REPLANS])
  exact ⟨r, hr, hst⟩

/-- C9: a prompt-content mismatch flagged by the semantic judge forces the
decision to accept whatever the confidence: the pass finishes with status
COMPLETED_WITH_WARNING carrying the mismatch warning; an iteration-exhaustion
abort (status INCONCLUSIVE) never carries a mismatch warning and can never
arise from a pass whose reflection flagged a mismatch; and the overlay only
ever runs with iteration < MAX_REPLANS, since the loop re-enters only below
the bound and starts at 1. -/
theorem C9_mismatch_overlay :
    (∀ (s : PlannerState) (inp : IterInput) (sc : Bool) (reason : String),
      s.error = none → inp.discovered ≠ [] → inp.dispatched ≠ [] →
      inp.reflection = ReflectionOutcome.llm sc reason true →
      ∃ r, runIteration s inp = IterOutcome.done r ∧
        r.status = "COMPLETED_WITH_WARNING" ∧ r.mismatch_warning = some reason ∧
        r.iterations = s.iteration) ∧
    (∀ (s : PlannerState) (inp : IterInput) (r : FinalResponse),
      runIteration s inp = IterOutcome.done r → r.status = "INCONCLUSIVE" →
      r.mismatch_warning = none ∧
      ∀ sc reason, inp.reflection ≠ ReflectionOutcome.llm sc reason true) ∧
    (∀ (s : PlannerState) (inp : IterInput) (s' : PlannerState),
      runIteration s inp = IterOutcome.next s' → s'.iteration < MAX_REPLANS) ∧
    (∀ (rid : String) (mc : Rat), (initialState rid mc).iteration < MAX_REPLANS) :=
  ⟨fun _ _ _ _ herr hdisc hdisp hrefl => runIteration_mismatch herr hdisc hdisp hrefl,
   fun _ _ _ h hinc => runIteration_inconclusive h hinc,
   fun _ _ _ h => (runIteration_next_replan h).2.2,
   fun rid mc => by norm_num [initialState, MAX_REPLANS]⟩

/-- An iteration environment whose reflection LLM flags a prompt-content
mismatch. -/
def exMismatchInp : IterInput :=
  { discovered := ["a1"],
    dispatched := [sampleResult "agent-1" "nonmedical" (3/10)],
    reflection := ReflectionOutcome.llm false "image is not medical" true }

/-- C9 witness: the mismatch-overlay theorem applied to a concrete state and
environment, discharging its hypotheses there. -/
theorem C9_mismatch_overlay_witness :
    ∃ r, runIteration (initialState "req-m" (1/2)) exMismatchInp =
        IterOutcome.done r ∧
      r.status = "COMPLETED_WITH_WARNING" ∧
      r.mismatch_warning = some "image is not medical" ∧
      r.iterations = (initialState "req-m" (1/2)).iteration :=
  C9_mismatch_overlay.1 (initialState "req-m" (1/2)) exMismatchInp false
    "image is not medical" rfl (by decide) (by decide) rfl
